import Mathlib

set_option maxRecDepth 8000
set_option maxHeartbeats 4000000

/-!
Verification of the detection-and-assembly pipeline of the diagram-renderer
repository (package `diagram_renderer`).  Python strings are embedded as
`List Char`; the grammar-specific renderers, the detector cascade, the
markdown block extractor and the template assembler are translated from
`src/diagram_renderer/__init__.py`, `renderers/mermaid.py`,
`renderers/plantuml.py`, `renderers/base.py` and `error_pages.py`.
Python exceptions are modelled with `Except (List Char) _` carrying the
exception message; runtime assets and templates (data files, not source)
are an abstract environment.  Lowercasing is ASCII (the sources only probe
ASCII keywords).  Literal braces of the embedded HTML/JS text are written
with the escapes \x7b and \x7d.
-/

/-- Shorthand: the character list of a string literal. -/
def lc (s : String) : List Char := s.toList

/-- Python `str.strip()` whitespace class (ASCII part: space, tab, newline,
carriage return, vertical tab, form feed). -/
def isPySpace (c : Char) : Bool :=
  c = ' ' || c = '\t' || c = '\n' || c = '\r' || c = '\x0b' || c = '\x0c'

/-- Python `str.lower()` (ASCII letters). -/
def pyLower (l : List Char) : List Char := l.map Char.toLower

/-- Python `str.lstrip()`. -/
def pyLStrip (l : List Char) : List Char := l.dropWhile isPySpace

/-- Python `str.strip()`. -/
def pyStrip (l : List Char) : List Char :=
  ((l.dropWhile isPySpace).reverse.dropWhile isPySpace).reverse

/-- Python `str.strip('"')`: drop double quotes from both ends. -/
def stripQuotes (l : List Char) : List Char :=
  ((l.dropWhile (· = '"')).reverse.dropWhile (· = '"')).reverse

/-- Python `str.splitlines()` (line breaks `\n`, `\r`, `\r\n`; no trailing
empty line for a terminal break). -/
def pySplitlinesGo (cur : List Char) : List Char → List (List Char)
  | [] => [cur.reverse]
  | '\r' :: '\n' :: rest =>
    cur.reverse :: (match rest with | [] => [] | _ :: _ => pySplitlinesGo [] rest)
  | '\r' :: rest =>
    cur.reverse :: (match rest with | [] => [] | _ :: _ => pySplitlinesGo [] rest)
  | '\n' :: rest =>
    cur.reverse :: (match rest with | [] => [] | _ :: _ => pySplitlinesGo [] rest)
  | c :: rest => pySplitlinesGo (c :: cur) rest

/-- Python `str.splitlines()`. -/
def pySplitlines : List Char → List (List Char)
  | [] => []
  | l => pySplitlinesGo [] l

/-- Python `str.split()` with no argument: the accumulator collects the
current field in reverse; whitespace runs separate fields, empty fields are
dropped. -/
def pySplitWsGo (cur : List Char) : List Char → List (List Char)
  | [] => if cur.isEmpty then [] else [cur.reverse]
  | c :: rest =>
    if isPySpace c then
      if cur.isEmpty then pySplitWsGo [] rest else cur.reverse :: pySplitWsGo [] rest
    else pySplitWsGo (c :: cur) rest

/-- Python `str.split()` with no argument: split on whitespace runs,
dropping empty fields. -/
def pySplitWs (l : List Char) : List (List Char) := pySplitWsGo [] l

/-- Python `s[i]` on a list: `IndexError` when out of range. -/
def pyIndex (l : List (List Char)) (i : Nat) : Except (List Char) (List Char) :=
  match l.get? i with
  | some x => Except.ok x
  | none => Except.error (lc "list index out of range")

/-- Tail-recursive scan for the first occurrence of `pat`, carrying the
current index. -/
def findIdxOfSubGo (pat : List Char) : Nat → List Char → Option Nat
  | i, l =>
    if pat.isPrefixOf l then some i
    else
      match l with
      | [] => none
      | _ :: xs => findIdxOfSubGo pat (i + 1) xs

/-- First index at which `pat` occurs as a sublist, if any. -/
def findIdxOfSub (pat l : List Char) : Option Nat := findIdxOfSubGo pat 0 l

/-- Python substring membership `pat in l`. -/
def containsSub (pat l : List Char) : Bool := (findIdxOfSub pat l).isSome

/-- Python `str.split(sep)` on a non-empty separator substring (fuel-driven;
the fuel `l.length + 1` always suffices since each step consumes at least
one character). -/
def pySplitSubGo (sep : List Char) : Nat → List Char → List (List Char)
  | 0, l => [l]
  | Nat.succ fuel, l =>
    match findIdxOfSub sep l with
    | none => [l]
    | some i => l.take i :: pySplitSubGo sep fuel (l.drop (i + sep.length))

/-- Python `str.split(sep)` for a non-empty `sep`. -/
def pySplitSub (sep l : List Char) : List (List Char) :=
  pySplitSubGo sep (l.length + 1) l

/-- Python `str.split(sep, maxsplit)` for a single-character separator. -/
def pySplitCharN (c : Char) : Nat → List Char → List (List Char)
  | 0, l => [l]
  | Nat.succ n, l =>
    match l.dropWhile (· ≠ c) with
    | [] => [l]
    | _ :: suf => l.takeWhile (· ≠ c) :: pySplitCharN c n suf

/-- Python `str.replace(old, new)` for a non-empty `old` (fuel-driven). -/
def pyReplaceGo (old new : List Char) : Nat → List Char → List Char
  | 0, l => l
  | Nat.succ fuel, l =>
    match l with
    | [] => []
    | c :: rest =>
      if old.isPrefixOf l then new ++ pyReplaceGo old new fuel (l.drop old.length)
      else c :: pyReplaceGo old new fuel rest

/-- Python `str.replace(old, new)` for a non-empty `old`. -/
def pyReplace (old new l : List Char) : List Char :=
  pyReplaceGo old new (l.length + 1) l

/-- Python `"sep".join(parts)`. -/
def pyJoin (sep : List Char) : List (List Char) → List Char
  | [] => []
  | [x] => x
  | x :: xs => x ++ sep ++ pyJoin sep xs

/-- Lowercase hexadecimal digit. -/
def hexDigit (n : Nat) : Char :=
  if n < 10 then Char.ofNat ('0'.toNat + n) else Char.ofNat ('a'.toNat + (n - 10))

/-- Four lowercase hex digits, as in Python `json.dumps` \uXXXX escapes. -/
def hex4 (n : Nat) : List Char :=
  [hexDigit (n / 4096 % 16), hexDigit (n / 256 % 16), hexDigit (n / 16 % 16),
   hexDigit (n % 16)]

/-- One character of Python `json.dumps` output (default `ensure_ascii=True`):
backslash escapes for the JSON specials, \uXXXX for other control and all
non-ASCII characters, surrogate pairs beyond the BMP. -/
def jsonEscChar (c : Char) : List Char :=
  if c = '\\' then lc "\\\\"
  else if c = '"' then lc "\\\""
  else if c = '\n' then lc "\\n"
  else if c = '\r' then lc "\\r"
  else if c = '\t' then lc "\\t"
  else if c = '\x08' then lc "\\b"
  else if c = '\x0c' then lc "\\f"
  else if c.toNat < 0x20 then '\\' :: 'u' :: hex4 c.toNat
  else if c.toNat < 0x7f then [c]
  else if c.toNat < 0x10000 then '\\' :: 'u' :: hex4 c.toNat
  else
    ('\\' :: 'u' :: hex4 (0xd800 + (c.toNat - 0x10000) / 0x400)) ++
      ('\\' :: 'u' :: hex4 (0xdc00 + (c.toNat - 0x10000) % 0x400))

/-- Python `json.dumps(s)` for a string: a double-quoted JSON string literal. -/
def jsonDumps (s : List Char) : List Char :=
  '"' :: (s.flatMap jsonEscChar ++ ['"'])

/-- `MermaidRenderer.detect_diagram_type` (renderers/mermaid.py): strong
indicator list, external/beta diagram list, then the weak participant/actor
rule keyed on sequence-diagram syntax. -/
def mermaid_detect (code : List Char) : Bool :=
  let code_lower := pyLower (pyStrip code)
  let strong_mermaid_indicators := [lc "graph ", lc "flowchart ",
    lc "sequencediagram", lc "classdiagram", lc "statediagram", lc "erdiagram",
    lc "journey", lc "gantt", lc "pie ", lc "mindmap", lc "timeline",
    lc "c4context", lc "quadrantchart", lc "requirement", lc "requirementdiagram"]
  let external_diagram_indicators := [lc "xychart-beta", lc "sankey",
    lc "sankey-beta", lc "block-beta", lc "gitgraph"]
  if strong_mermaid_indicators.any (fun ind => containsSub ind code_lower) then true
  else if external_diagram_indicators.any (fun ind => containsSub ind code_lower) then true
  else if containsSub (lc "participant ") code_lower || containsSub (lc "actor ") code_lower then
    containsSub (lc "sequencediagram") code_lower
      || containsSub (lc "-->") code_lower
      || containsSub (lc "->>") code_lower
      || (containsSub (lc "participant ") code_lower
          && (containsSub (lc "as ") code_lower || containsSub (lc ":") code_lower))
  else false

/-- `PlantUMLRenderer.detect_diagram_type` (renderers/plantuml.py): strong
PlantUML indicators, then the Mermaid-keyword exclusion, the participant/actor
disambiguation, line-anchored weak indicators, and the `class` fallback. -/
def plantuml_detect (code : List Char) : Bool :=
  let code_lower := pyLower (pyStrip code)
  let strong_plantuml_indicators := [lc "@startuml", lc "@startmindmap",
    lc "@startgantt", lc "@startclass", lc "@enduml", lc "skinparam",
    lc "!theme", lc "!include"]
  let mermaid_indicators := [lc "flowchart ", lc "graph ", lc "sequencediagram",
    lc "classdiagram", lc "statediagram", lc "erdiagram", lc "journey",
    lc "gantt", lc "pie ", lc "gitgraph", lc "requirement", lc "mindmap",
    lc "timeline", lc "block-beta", lc "c4context"]
  let plantuml_weak_indicators := [lc "boundary ", lc "control ", lc "entity ",
    lc "database ", lc "collections ", lc "queue "]
  if strong_plantuml_indicators.any (fun ind => containsSub ind code_lower) then true
  else if mermaid_indicators.any (fun ind => containsSub ind code_lower) then false
  else if containsSub (lc "participant ") code_lower || containsSub (lc "actor ") code_lower then
    !(containsSub (lc "sequencediagram") code_lower
      || containsSub (lc "-->") code_lower
      || containsSub (lc "->>") code_lower
      || (containsSub (lc "participant ") code_lower
          && (containsSub (lc "as ") code_lower || containsSub (lc ":") code_lower)))
  else if (pySplitlines code_lower).any (fun line =>
      plantuml_weak_indicators.any (fun tok => tok.isPrefixOf (pyLStrip line))) then true
  else if containsSub (lc "class ") code_lower && !containsSub (lc "classdiagram") code_lower then
    true
  else false

/-- Modelled from the spec: `GraphvizRenderer.detect_diagram_type` is not
among the staged sources (renderers/graphviz.py is absent from src/); the
spec's generic-graph detector and the facade's error page name the strong
indicators digraph, graph, strict digraph, strict graph. -/
def graphviz_detect (code : List Char) : Bool :=
  let code_lower := pyLower (pyStrip code)
  (lc "digraph").isPrefixOf code_lower
    || (lc "strict digraph").isPrefixOf code_lower
    || (lc "strict graph").isPrefixOf code_lower
    || (lc "graph").isPrefixOf code_lower

/-- Python `str.startswith(pat)`. -/
def startsWith (pat l : List Char) : Bool := List.isPrefixOf pat l

/-- Python `str.endswith(pat)`. -/
def endsWith (pat l : List Char) : Bool := List.isPrefixOf pat.reverse l.reverse

/-- Python `str.split(c)` (single-character separator, no maxsplit). -/
def pySplitChar (c : Char) (l : List Char) : List (List Char) :=
  pySplitCharN c l.length l

/-- `MermaidRenderer.clean_code`: a trim. -/
def mermaid_clean_code (code : List Char) : List Char := pyStrip code

/-- `PlantUMLRenderer.clean_code`: trim, then guarantee the `@start…` prefix
and the `@enduml` suffix (prefix/suffix tests, inserting when absent). -/
def plantuml_clean_code (code : List Char) : List Char :=
  let c1 := pyStrip code
  let c2 := if startsWith (lc "@start") c1 then c1 else lc "@startuml\n" ++ c1
  if endsWith (lc "@enduml") c2 then c2 else c2 ++ lc "\n@enduml"

/-- Modelled from the spec: `GraphvizRenderer.clean_code` is not among the
staged sources; the spec's normalizer for the graph grammar is a trim. -/
def graphviz_clean_code (code : List Char) : List Char := pyStrip code

/-- Participant name extraction of `PlantUMLRenderer._convert_sequence_to_dot`:
`line.split()[1].strip('"')`, overridden by the `… as alias` form; the index
access raises `IndexError` when the declaration has no name token. -/
def seq_participant_name (line : List Char) : Except (List Char) (List Char) := do
  let n0 ← pyIndex (pySplitWs line) 1
  let n0 := stripQuotes n0
  if containsSub (lc " as ") line then do
    let n1 ← pyIndex (pySplitSub (lc " as ") line) 1
    pure (stripQuotes (pyStrip n1))
  else pure n0

/-- The line loop of `PlantUMLRenderer._convert_sequence_to_dot`: collect
participant names and `from -> to : label` connections in line order. -/
def seq_collect : List (List Char) →
    Except (List Char) (List (List Char) × List (List Char × List Char × List Char))
  | [] => Except.ok ([], [])
  | line :: rest => do
    let l := pyStrip line
    if startsWith (lc "participant") l || startsWith (lc "actor") l then
      let name ← seq_participant_name l
      let (ps, cs) ← seq_collect rest
      pure (name :: ps, cs)
    else if containsSub (lc "->") l then
      let parts := pySplitSub (lc "->") l
      if parts.length = 2 then do
        let from_p := pyStrip (parts.getD 0 [])
        let to_part := pyStrip (parts.getD 1 [])
        let conn :=
          if containsSub (lc ":") to_part then
            let halves := pySplitCharN ':' 1 to_part
            (from_p, pyStrip (halves.getD 0 []), pyStrip (halves.getD 1 []))
          else (from_p, to_part, ([] : List Char))
        let (ps, cs) ← seq_collect rest
        pure (ps, conn :: cs)
      else seq_collect rest
    else seq_collect rest

/-- The DOT text `PlantUMLRenderer._convert_sequence_to_dot` builds: header,
one node statement per collected participant, one edge statement per
collected connection, closing brace. -/
def seq_dot_string (participants : List (List Char))
    (connections : List (List Char × List Char × List Char)) : List Char :=
  lc "digraph sequence \x7b\n"
    ++ lc "  rankdir=LR;\n"
    ++ lc "  node [shape=box, style=filled, fillcolor=white];\n"
    ++ participants.flatMap (fun p => lc "  \"" ++ p ++ lc "\";\n")
    ++ connections.flatMap (fun c =>
      if !c.2.2.isEmpty then
        lc "  \"" ++ c.1 ++ lc "\" -> \"" ++ c.2.1 ++ lc "\" [label=\"" ++ c.2.2
          ++ lc "\"];\n"
      else
        lc "  \"" ++ c.1 ++ lc "\" -> \"" ++ c.2.1 ++ lc "\";\n")
    ++ lc "\x7d"

/-- `PlantUMLRenderer._convert_sequence_to_dot`. -/
def convert_sequence_to_dot (lines : List (List Char)) : Except (List Char) (List Char) :=
  match seq_collect lines with
  | Except.error e => Except.error e
  | Except.ok pc => Except.ok (seq_dot_string pc.1 pc.2)

/-- The line loop of `PlantUMLRenderer._convert_class_to_dot`: collect class
names and `parent <|-- child` inheritance pairs in line order. -/
def class_collect : List (List Char) →
    Except (List Char) (List (List Char) × List (List Char × List Char))
  | [] => Except.ok ([], [])
  | line :: rest => do
    let l := pyStrip line
    if startsWith (lc "class ") l then do
      let tok ← pyIndex (pySplitWs l) 1
      let name := pyStrip ((pySplitSub (lc "\x7b") tok).getD 0 [])
      let (cls, rels) ← class_collect rest
      pure (name :: cls, rels)
    else if containsSub (lc "<|--") l then do
      let parts := pySplitSub (lc "<|--") l
      let p1 ← pyIndex parts 1
      let p0 := parts.getD 0 []
      let (cls, rels) ← class_collect rest
      pure (cls, (pyStrip p1, pyStrip p0) :: rels)
    else class_collect rest

/-- The DOT text `PlantUMLRenderer._convert_class_to_dot` builds. -/
def class_dot_string (classes : List (List Char))
    (relationships : List (List Char × List Char)) : List Char :=
  lc "digraph classes \x7b\n"
    ++ lc "  node [shape=record, style=filled, fillcolor=white];\n"
    ++ classes.flatMap (fun c => lc "  \"" ++ c ++ lc "\" [label=\"" ++ c ++ lc "\"];\n")
    ++ relationships.flatMap (fun r =>
      lc "  \"" ++ r.1 ++ lc "\" -> \"" ++ r.2 ++ lc "\" [arrowhead=empty];\n")
    ++ lc "\x7d"

/-- `PlantUMLRenderer._convert_class_to_dot`. -/
def convert_class_to_dot (lines : List (List Char)) : Except (List Char) (List Char) :=
  match class_collect lines with
  | Except.error e => Except.error e
  | Except.ok pc => Except.ok (class_dot_string pc.1 pc.2)

/-- The known-unsupported table of
`PlantUMLRenderer._detect_unsupported_plantuml_type`. -/
def unsupported_types : List (List Char × List Char × List Char) :=
  [(lc "@startmindmap", lc "mindmap", lc "Mind maps"),
   (lc "@startsalt", lc "salt", lc "Salt UI mockups"),
   (lc "@startgantt", lc "gantt", lc "Gantt charts"),
   (lc "@startuml\nstart\n", lc "activity", lc "Activity diagrams"),
   (lc ":start;", lc "activity", lc "Activity diagrams with complex control flow"),
   (lc "object ", lc "object", lc "Object diagrams"),
   (lc "robust", lc "timing", lc "Timing diagrams")]

/-- `PlantUMLRenderer._detect_unsupported_plantuml_type`: first matching table
entry, else the generic `unknown` entry (always produced). -/
def detect_unsupported_plantuml_type (code : List Char) : List Char :=
  let code_lower := pyLower code
  match unsupported_types.find? (fun t => containsSub t.1 code_lower) with
  | some t => lc "UNSUPPORTED_PLANTUML_TYPE:" ++ t.2.1 ++ lc ":" ++ t.2.2
  | none => lc "UNSUPPORTED_PLANTUML_TYPE:unknown:Advanced PlantUML features"

/-- `PlantUMLRenderer._generate_fallback_dot`. -/
def generate_fallback_dot : List Char :=
  lc "digraph G \x7b\n    node [shape=box, style=\"filled\", fillcolor=\"lightyellow\"];\n    PlantUML [label=\"PlantUML Diagram\\n(Local Rendering)\"];\n    Note [label=\"This PlantUML diagram type\\nis not fully supported\\nfor local rendering\", shape=note, fillcolor=\"lightblue\"];\n    PlantUML -> Note [style=dashed];\n\x7d"

/-- `PlantUMLRenderer.convert_plantuml_to_dot`: clean, split into lines, then
dispatch to the sequence, class, known-unsupported or fallback branch (the
Python locals `clean_code`, `lines` and `unsupported` are inlined). -/
def convert_plantuml_to_dot (plantuml_code : List Char) : Except (List Char) (List Char) :=
  if ((pySplitChar '\n' (plantuml_clean_code plantuml_code)).any fun line =>
      containsSub (lc "participant") line
      || containsSub (lc "actor") line || containsSub (lc "->") line) then
    convert_sequence_to_dot (pySplitChar '\n' (plantuml_clean_code plantuml_code))
  else if ((pySplitChar '\n' (plantuml_clean_code plantuml_code)).any fun line =>
      containsSub (lc "class") line) then
    convert_class_to_dot (pySplitChar '\n' (plantuml_clean_code plantuml_code))
  else if startsWith (lc "UNSUPPORTED_PLANTUML_TYPE:")
      (detect_unsupported_plantuml_type (plantuml_clean_code plantuml_code)) then
    match pyIndex (pySplitCharN ':' 2
        (detect_unsupported_plantuml_type (plantuml_clean_code plantuml_code))) 1 with
    | Except.error e => Except.error e
    | Except.ok p1 =>
      if p1 ≠ lc "unknown" then
        Except.ok (detect_unsupported_plantuml_type (plantuml_clean_code plantuml_code))
      else Except.ok generate_fallback_dot
  else Except.ok generate_fallback_dot

/-- The machine-readable status marker of the error documents. -/
def status_marker : List Char :=
  lc "<meta name=\"diagram-render-status\" content=\"error\">"

/-- `DiagramRenderer._generate_no_diagram_detected_error_html`: the document text before the echoed source. -/
def no_detected_pre : List Char :=
  lc "<!DOCTYPE html>\n<html>\n<head>\n    <meta charset=\"utf-8\">\n    <title>Diagram Renderer - No Diagram Type Detected</title>\n    <style>\n        body \x7b\n            font-family: -apple-system, BlinkMacSystemFont, 'Segoe UI', Roboto, sans-serif;\n            margin: 0;\n            padding: 40px;\n            background-color: #f8f9fa;\n            color: #24292e;\n        \x7d\n        .error-container \x7b\n            max-width: 800px;\n            margin: 0 auto;\n            background: white;\n            border-radius: 8px;\n            padding: 32px;\n            box-shadow: 0 1px 3px rgba(0,0,0,0.12);\n        \x7d\n        .error-icon \x7b font-size: 48px; color: #f85149; margin-bottom: 16px; \x7d\n        h1 \x7b color: #f85149; margin: 0 0 16px 0; font-size: 24px; \x7d\n        .code-block \x7b\n            background: #f6f8fa;\n            border: 1px solid #d0d7de;\n            border-radius: 6px;\n            padding: 16px;\n            margin: 16px 0;\n            font-family: 'SF Mono', Monaco, 'Cascadia Code', monospace;\n            font-size: 14px;\n            overflow-x: auto;\n            white-space: pre-wrap;\n        \x7d\n        .supported-types \x7b\n            background: #e7f3ff;\n            border: 1px solid #b6d7ff;\n            border-radius: 6px;\n            padding: 16px;\n            margin: 16px 0;\n        \x7d\n    </style>\n</head>\n<body>\n    <div class=\"error-container\">\n        <div class=\"error-icon\">\uf8ff\u00fc\u00a7\u00ee</div>\n        <h1>No Diagram Type Detected</h1>\n        <p>The provided code doesn't appear to be a recognized diagram format.</p>\n\n        <p><strong>Your code:</strong></p>\n        <div class=\"code-block\">"

/-- `DiagramRenderer._generate_no_diagram_detected_error_html`: the document text after the echoed source. -/
def no_detected_post : List Char :=
  lc "</div>\n\n        <div class=\"supported-types\">\n            <h3>Supported diagram types:</h3>\n            <ul>\n                <li><strong>Mermaid:</strong> flowchart, graph, sequenceDiagram, classDiagram, stateDiagram, erDiagram, gantt, pie, journey, gitGraph, requirement, mindmap</li>\n                <li><strong>PlantUML:</strong> @startuml...@enduml blocks</li>\n                <li><strong>Graphviz:</strong> digraph, graph, strict digraph, strict graph</li>\n            </ul>\n        </div>\n\n        <p><strong>Common fixes:</strong></p>\n        <ul>\n            <li>Check that your diagram starts with the correct keyword (e.g., \"flowchart TD\", \"sequenceDiagram\", \"@startuml\")</li>\n            <li>Ensure proper syntax for your chosen diagram type</li>\n            <li>Remove any extra markdown formatting (backticks, language tags)</li>\n        </ul>\n    </div>\n</body>\n</html>"

/-- `DiagramRenderer._generate_rendering_error_html`: text before the exception message. -/
def rendering_error_pre : List Char :=
  lc "<!DOCTYPE html>\n<html>\n<head>\n    <meta charset=\"utf-8\">\n    <title>Diagram Renderer - Rendering Error</title>\n    "
    ++ status_marker ++ lc "\n    <style>\n        body \x7b\n            font-family: -apple-system, BlinkMacSystemFont, 'Segoe UI', Roboto, sans-serif;\n            margin: 0;\n            padding: 40px;\n            background-color: #f8f9fa;\n            color: #24292e;\n        \x7d\n        .error-container \x7b\n            max-width: 800px;\n            margin: 0 auto;\n            background: white;\n            border-radius: 8px;\n            padding: 32px;\n            box-shadow: 0 1px 3px rgba(0,0,0,0.12);\n        \x7d\n        .error-icon \x7b font-size: 48px; color: #f85149; margin-bottom: 16px; \x7d\n        h1 \x7b color: #f85149; margin: 0 0 16px 0; font-size: 24px; \x7d\n        .code-block \x7b\n            background: #f6f8fa;\n            border: 1px solid #d0d7de;\n            border-radius: 6px;\n            padding: 16px;\n            margin: 16px 0;\n            font-family: 'SF Mono', Monaco, 'Cascadia Code', monospace;\n            font-size: 14px;\n            overflow-x: auto;\n            white-space: pre-wrap;\n        \x7d\n        .error-details \x7b\n            background: #fff5f5;\n            border: 1px solid #fecaca;\n            border-radius: 6px;\n            padding: 16px;\n            margin: 16px 0;\n            color: #991b1b;\n        \x7d\n    </style>\n</head>\n<body>\n    <div class=\"error-container\">\n        <div class=\"error-icon\">\u201a\u00f9\u00e5</div>\n        <h1>Diagram Rendering Error</h1>\n        <p>An error occurred while trying to render your diagram.</p>\n\n        <div class=\"error-details\">\n            <h3>Error details:</h3>\n            <p>"

/-- `DiagramRenderer._generate_rendering_error_html`: text between the exception message and the echoed source. -/
def rendering_error_mid : List Char :=
  lc "</p>\n        </div>\n\n        <p><strong>Your code:</strong></p>\n        <div class=\"code-block\">"

/-- `DiagramRenderer._generate_rendering_error_html`: text after the echoed source. -/
def rendering_error_post : List Char :=
  lc "</div>\n\n        <p><strong>Common causes:</strong></p>\n        <ul>\n            <li>Syntax errors in the diagram code</li>\n            <li>Unsupported diagram features</li>\n            <li>Missing required plugins or libraries</li>\n            <li>Malformed diagram structure</li>\n        </ul>\n\n        <p><strong>Suggestions:</strong></p>\n        <ul>\n            <li>Check the diagram syntax against the official documentation</li>\n            <li>Try simplifying the diagram to isolate the issue</li>\n            <li>Ensure all required dependencies are available</li>\n        </ul>\n    </div>\n</body>\n</html>"

/-- `MermaidRenderer._generate_mermaid_rendering_script`: text before the spliced clean code. -/
def mermaid_script_pre : List Char :=
  lc "        // Mermaid rendering\n        async function renderDiagram() \x7b\n            try \x7b\n                loading.style.display = 'flex';\n                diagramContent.style.display = 'none';\n\n                // Register external/beta diagrams if available (e.g., xychart-beta, sankey)\n                try \x7b\n                    if (typeof mermaid !== 'undefined') \x7b\n                        const plugins = [];\n                        // Known globals from plugin UMD builds\n                        if (globalThis.mermaidXychart || globalThis.mermaidXYChart) \x7b\n                            plugins.push(globalThis.mermaidXychart || globalThis.mermaidXYChart);\n                        \x7d\n                        if (globalThis.mermaidSankey || globalThis.mermaid_sankey) \x7b\n                            plugins.push(globalThis.mermaidSankey || globalThis.mermaid_sankey);\n                        \x7d\n                        if (plugins.length && typeof mermaid.registerExternalDiagrams === 'function') \x7b\n                            mermaid.registerExternalDiagrams(plugins);\n                        \x7d\n                    \x7d\n                \x7d catch (e) \x7b\n                    console.warn('Optional Mermaid external diagram registration failed:', e);\n                \x7d\n\n                mermaid.initialize(\x7b\n                    startOnLoad: false,\n                    theme: 'default',\n                    securityLevel: 'loose',\n                    suppressErrorRendering: false,\n                    externalDiagrams: [],\n                    fontFamily: '-apple-system, BlinkMacSystemFont, \"Segoe UI\", Roboto, \"Helvetica Neue\", Arial, sans-serif',\n                    flowchart: \x7b\n                        useMaxWidth: false,\n                        htmlLabels: true\n                    \x7d,\n                    sequence: \x7b\n                        useMaxWidth: false\n                    \x7d,\n                    gantt: \x7b\n                        useMaxWidth: false\n                    \x7d,\n                    class: \x7b\n                        useMaxWidth: false\n                    \x7d,\n                    state: \x7b\n                        useMaxWidth: false\n                    \x7d,\n                    er: \x7b\n                        useMaxWidth: false\n                    \x7d,\n                    pie: \x7b\n                        useMaxWidth: false\n                    \x7d,\n                    journey: \x7b\n                        useMaxWidth: false\n                    \x7d,\n                    timeline: \x7b\n                        useMaxWidth: false\n                    \x7d,\n                    quadrantChart: \x7b\n                        useMaxWidth: false\n                    \x7d,\n                    requirement: \x7b\n                        useMaxWidth: false\n                    \x7d,\n                    c4: \x7b\n                        useMaxWidth: false\n                    \x7d,\n                    block: \x7b\n                        useMaxWidth: false\n                    \x7d\n                \x7d);\n\n                const code = `"

/-- `MermaidRenderer._generate_mermaid_rendering_script`: text between the clean code and the escaped original. -/
def mermaid_script_mid : List Char :=
  lc "`;\n                // Helpful guidance when external diagrams are used but plugins aren't bundled\n                const lc = code.trim().toLowerCase();\n                if (lc.startsWith('xychart-beta') && !(globalThis.mermaidXychart || globalThis.mermaidXYChart)) \x7b\n                    throw new Error('xychart-beta requires mermaid-xychart. Bundle static/js/mermaid-xychart.min.js and ensure registration.');\n                \x7d\n                if (lc.startsWith('sankey') && !(globalThis.mermaidSankey || globalThis.mermaid_sankey)) \x7b\n                    throw new Error('sankey requires mermaid-sankey. Bundle static/js/mermaid-sankey.min.js and ensure registration.');\n                \x7d\n\n                // Attempt to render the diagram\n                const result = await mermaid.render('mermaid-diagram-svg', code);\n                const svg = result && result.svg ? result.svg : '';\n\n                // Check if SVG is valid and contains actual diagram content\n                if (!svg || typeof svg !== 'string' || !svg.trim()) \x7b\n                    throw new Error('Mermaid returned no SVG output. This diagram may be unsupported by the bundled Mermaid version.');\n                \x7d\n\n                // Check for common signs of failed rendering\n                if (svg.length < 100 || !svg.includes('<svg')) \x7b\n                    throw new Error('Mermaid returned invalid SVG. The diagram type may not be supported.');\n                \x7d\n\n                // Additional validation - check if SVG has meaningful content\n                if (!svg.includes('<g') && !svg.includes('<rect') && !svg.includes('<circle') && !svg.includes('<path')) \x7b\n                    throw new Error('Mermaid returned empty diagram. Check diagram syntax and type compatibility.');\n                \x7d\n\n                diagramContent.innerHTML = svg;\n                loading.style.display = 'none';\n                diagramContent.style.display = 'block';\n\n                // Initialize pan/zoom after rendering\n                setTimeout(() => \x7b\n                    initializePanZoom();\n                    diagramReady = true;\n                \x7d, 100);\n\n            \x7d catch (error) \x7b\n                console.error('Mermaid rendering error:', error);\n                loading.style.display = 'none';\n                diagramContent.innerHTML = `\n                    <div class=\"error-message\">\n                        <strong>Error rendering diagram:</strong><br>\n                        $\x7berror.message\x7d\n                        <br><br>\n                        <strong>Original code:</strong><br>\n                        <pre>"

/-- `MermaidRenderer._generate_mermaid_rendering_script`: text after the escaped original. -/
def mermaid_script_post : List Char :=
  lc "</pre>\n                    </div>\n                `;\n                diagramContent.style.display = 'block';\n            \x7d\n        \x7d"

/-- The default `renderDiagram` stub replaced by renderer-specific scripts (identical local literal in `MermaidRenderer._populate_mermaid_template` and `BaseRenderer._render_unified_html`). -/
def default_render_function : List Char :=
  lc "        // Diagram rendering function - to be overridden by specific renderers\n        function renderDiagram() \x7b\n            // Default implementation - just show the content\n            loading.style.display = 'none';\n            diagramContent.style.display = 'block';\n\n            // Initialize pan/zoom after content is ready\n            setTimeout(() => \x7b\n                initializePanZoom();\n                diagramReady = true;\n            \x7d, 100);\n        \x7d"

/-- `BaseRenderer._render_unified_html` VizJS script: text before the escaped DOT code. -/
def vizjs_script_p0 : List Char :=
  lc "        // VizJS rendering\n        function renderDiagram() \x7b\n            try \x7b\n                loading.style.display = 'none';\n\n                // Create div for SVG output\n                diagramContent.innerHTML = '<div id=\"svg-output\"></div>';\n                diagramContent.style.display = 'block';\n\n                // Render DOT to SVG using correct VizJS API\n                if (typeof Viz !== 'undefined') \x7b\n                    const dotCode = "

/-- `BaseRenderer._render_unified_html` VizJS script: text between the escaped DOT and the first escaped original. -/
def vizjs_script_p1 : List Char :=
  lc ";\n                    const viz = new Viz();\n                    viz.renderSVGElement(dotCode).then(function(svgElement) \x7b\n                        const outputDiv = document.getElementById('svg-output');\n                        outputDiv.innerHTML = '';\n                        outputDiv.appendChild(svgElement);\n\n                        // Initialize pan/zoom after SVG is rendered\n                        setTimeout(() => \x7b\n                            initializePanZoom();\n                            diagramReady = true;\n                        \x7d, 200);\n\n                    \x7d).catch(function(vizError) \x7b\n                        console.error('VizJS error:', vizError);\n                        document.getElementById('svg-output').innerHTML =\n                            '<div class=\"error-message\"><strong>Error rendering diagram:</strong><br>' +\n                            vizError.message + '<br><br><strong>Original code:</strong><br><pre>"

/-- `BaseRenderer._render_unified_html` VizJS script: text between the two escaped-original splices. -/
def vizjs_script_p2 : List Char :=
  lc "</pre></div>';\n                    \x7d);\n                \x7d else \x7b\n                    document.getElementById('svg-output').innerHTML =\n                        '<div class=\"error-message\"><strong>Error:</strong><br>VizJS not available</div>';\n                \x7d\n\n            \x7d catch (error) \x7b\n                console.error('Diagram rendering error:', error);\n                loading.style.display = 'none';\n                diagramContent.innerHTML = `\n                    <div class=\"error-message\">\n                        <strong>Error rendering diagram:</strong><br>\n                        $\x7berror.message\x7d\n                        <br><br>\n                        <strong>Original code:</strong><br>\n                        <pre>"

/-- `BaseRenderer._render_unified_html` VizJS script: text after the second escaped original. -/
def vizjs_script_p3 : List Char :=
  lc "</pre>\n                    </div>\n                `;\n                diagramContent.style.display = 'block';\n            \x7d\n        \x7d"

/-- `error_pages.generate_unsupported_diagram_error_html`: text before the plugins text. -/
def unsupported_docpre : List Char :=
  lc "<!DOCTYPE html>\n<html>\n<head>\n    <meta charset=\"utf-8\">\n    <title>Diagram Renderer - Unsupported Diagram Type</title>\n    "
    ++ status_marker ++ lc "\n    <style>\n        body \x7b\n            font-family: -apple-system, BlinkMacSystemFont, 'Segoe UI', Roboto, sans-serif;\n            margin: 0;\n            padding: 40px;\n            background-color: #f8f9fa;\n            color: #24292e;\n        \x7d\n        .error-container \x7b\n            max-width: 800px;\n            margin: 0 auto;\n            background: white;\n            border-radius: 8px;\n            padding: 32px;\n            box-shadow: 0 1px 3px rgba(0,0,0,0.12);\n        \x7d\n        .error-icon \x7b\n            font-size: 48px;\n            color: #f85149;\n            margin-bottom: 16px;\n        \x7d\n        h1 \x7b\n            color: #f85149;\n            margin: 0 0 16px 0;\n            font-size: 24px;\n        \x7d\n        .code-block \x7b\n            background: #f6f8fa;\n            border: 1px solid #d0d7de;\n            border-radius: 6px;\n            padding: 16px;\n            margin: 16px 0;\n            font-family: 'SF Mono', Monaco, 'Cascadia Code', monospace;\n            font-size: 14px;\n            overflow-x: auto;\n        \x7d\n        .requirements \x7b\n            background: #fff3cd;\n            border: 1px solid #ffeaa7;\n            border-radius: 6px;\n            padding: 16px;\n            margin: 16px 0;\n        \x7d\n        .requirements h3 \x7b\n            margin-top: 0;\n            color: #b45309;\n        \x7d\n        .requirements pre \x7b\n            background: none;\n            border: none;\n            padding: 0;\n            margin: 8px 0;\n            white-space: pre-wrap;\n        \x7d\n    </style>\n</head>\n<body>\n    <div class=\"error-container\">\n        <div class=\"error-icon\">\u26a0\ufe0f</div>\n        <h1>Unsupported Diagram Type</h1>\n        <p>This diagram uses external Mermaid features that require additional plugins:</p>\n\n        <div class=\"requirements\">\n            <h3>Missing Requirements:</h3>\n            <pre>"

/-- `error_pages.generate_unsupported_diagram_error_html`: text between the plugins text and the echoed source. -/
def unsupported_docmid : List Char :=
  lc "</pre>\n        </div>\n\n        <p><strong>Original diagram code:</strong></p>\n        <div class=\"code-block\">"

/-- `error_pages.generate_unsupported_diagram_error_html`: text after the echoed source. -/
def unsupported_docpost : List Char :=
  lc "</div>\n\n        <p><strong>How to fix:</strong></p>\n        <ol>\n            <li>Download the required plugin files and place them in your <code>static/js/</code> directory</li>\n            <li>Ensure the diagram renderer can bundle these plugins with the main Mermaid library</li>\n            <li>Alternatively, use a supported diagram type instead</li>\n        </ol>\n\n        <p><em>Note: This project requires all JavaScript dependencies to be bundled locally (no CDN dependencies).</em></p>\n    </div>\n</body>\n</html>"

/-- `MermaidRenderer._generate_missing_plugin_error_html`: text before the plugins text. -/
def missing_plugin_docpre : List Char :=
  lc "<!DOCTYPE html>\n<html>\n<head>\n    <meta charset=\"utf-8\">\n    <title>Diagram Renderer - Unsupported Diagram Type</title>\n    "
    ++ status_marker ++ lc "\n    <style>\n        body \x7b\n            font-family: -apple-system, BlinkMacSystemFont, 'Segoe UI', Roboto, sans-serif;\n            margin: 0;\n            padding: 40px;\n            background-color: #f8f9fa;\n            color: #24292e;\n        \x7d\n        .error-container \x7b\n            max-width: 800px;\n            margin: 0 auto;\n            background: white;\n            border-radius: 8px;\n            padding: 32px;\n            box-shadow: 0 1px 3px rgba(0,0,0,0.12);\n        \x7d\n        .error-icon \x7b\n            font-size: 48px;\n            color: #f85149;\n            margin-bottom: 16px;\n        \x7d\n        h1 \x7b\n            color: #f85149;\n            margin: 0 0 16px 0;\n            font-size: 24px;\n        \x7d\n        .code-block \x7b\n            background: #f6f8fa;\n            border: 1px solid #d0d7de;\n            border-radius: 6px;\n            padding: 16px;\n            margin: 16px 0;\n            font-family: 'SF Mono', Monaco, 'Cascadia Code', monospace;\n            font-size: 14px;\n            overflow-x: auto;\n        \x7d\n        .requirements \x7b\n            background: #fff3cd;\n            border: 1px solid #ffeaa7;\n            border-radius: 6px;\n            padding: 16px;\n            margin: 16px 0;\n        \x7d\n        .requirements h3 \x7b\n            margin-top: 0;\n            color: #b45309;\n        \x7d\n        .requirements pre \x7b\n            background: none;\n            border: none;\n            padding: 0;\n            margin: 8px 0;\n            white-space: pre-wrap;\n        \x7d\n    </style>\n</head>\n<body>\n    <div class=\"error-container\">\n        <div class=\"error-icon\">\u26a0\ufe0f</div>\n        <h1>Unsupported Diagram Type</h1>\n        <p>This diagram uses external Mermaid features that require additional plugins:</p>\n\n        <div class=\"requirements\">\n            <h3>Missing Requirements:</h3>\n            <pre>"

/-- `MermaidRenderer._generate_missing_plugin_error_html`: text between the plugins text and the echoed source. -/
def missing_plugin_docmid : List Char :=
  lc "</pre>\n        </div>\n\n        <p><strong>Original diagram code:</strong></p>\n        <div class=\"code-block\">"

/-- `MermaidRenderer._generate_missing_plugin_error_html`: text after the echoed source. -/
def missing_plugin_docpost : List Char :=
  lc "</div>\n\n        <p><strong>How to fix:</strong></p>\n        <ol>\n            <li>Download the required plugin files and place them in your <code>static/js/</code> directory</li>\n            <li>Ensure the diagram renderer can bundle these plugins with the main Mermaid library</li>\n            <li>Alternatively, use a supported diagram type instead</li>\n        </ol>\n\n        <p><em>Note: This project requires all JavaScript dependencies to be bundled locally (no CDN dependencies).</em></p>\n    </div>\n</body>\n</html>"

/-- An external plugin requirement record (`dict` entries with keys `type`,
`plugin_needed`, `description` in mermaid.py / plantuml.py). -/
structure Req where
  rtype : List Char
  plugin_needed : List Char
  description : List Char

/-- The runtime-asset boundary: `BaseRenderer.get_static_js_content` and
`BaseRenderer.get_template_content` return the file text or `None`; the
files themselves are data, not staged source. -/
structure AssetEnv where
  loadAsset : List Char → Option (List Char)
  loadTemplate : List Char → Option (List Char)

/-- Modelled from the spec: the constant `TEMPLATE_UNIFIED` of renderers/base.py
is imported by mermaid.py but its assignment is not among the staged sources;
`BaseRenderer._render_unified_html` names the same template "unified.html". -/
def TEMPLATE_UNIFIED : List Char := lc "unified.html"

/-- Python truthiness test `not x` for an optional string: `None` and the
empty string are falsy. -/
def optFalsy : Option (List Char) → Bool
  | none => true
  | some s => s.isEmpty

/-- `MermaidRenderer._generate_error_html` and the inline error divs of
`BaseRenderer._render_unified_html`: `<div>Error: {message}</div>`. -/
def error_div (error_message : List Char) : List Char :=
  lc "<div>Error: " ++ error_message ++ lc "</div>"

/-- `DiagramRenderer._generate_no_diagram_detected_error_html`. -/
def generate_no_diagram_detected_error_html (original_code : List Char) : List Char :=
  no_detected_pre ++ original_code ++ no_detected_post

/-- `DiagramRenderer._generate_rendering_error_html`. -/
def generate_rendering_error_html (original_code error_message : List Char) : List Char :=
  rendering_error_pre ++ error_message ++ rendering_error_mid ++ original_code
    ++ rendering_error_post

/-- The per-plugin lines of the unsupported/missing-plugin error pages. -/
def plugin_lines (missing_plugins : List Req) : List (List Char) :=
  missing_plugins.flatMap (fun p =>
    [lc "• " ++ p.description, lc "  Required file: static/js/" ++ p.plugin_needed])

/-- `error_pages.generate_unsupported_diagram_error_html` (the plugin lines
are joined with the two-character sequence backslash-n, as in the source). -/
def generate_unsupported_diagram_error_html (missing_plugins : List Req)
    (original_code : List Char) : List Char :=
  let plugins_text := pyJoin (lc "\\n") (plugin_lines missing_plugins)
  unsupported_docpre ++ plugins_text ++ unsupported_docmid ++ original_code
    ++ unsupported_docpost

/-- `MermaidRenderer._generate_missing_plugin_error_html` (plugin lines joined
with a real newline). -/
def generate_missing_plugin_error_html (missing_plugins : List Req)
    (original_code : List Char) : List Char :=
  let plugins_text := pyJoin (lc "\n") (plugin_lines missing_plugins)
  missing_plugin_docpre ++ plugins_text ++ missing_plugin_docmid ++ original_code
    ++ missing_plugin_docpost

/-- `MermaidRenderer._generate_mermaid_rendering_script`. -/
def generate_mermaid_rendering_script (clean_code escaped_original : List Char) : List Char :=
  mermaid_script_pre ++ clean_code ++ mermaid_script_mid ++ escaped_original
    ++ mermaid_script_post

/-- The VizJS rendering script of `BaseRenderer._render_unified_html` (the
escaped original is spliced twice). -/
def vizjs_rendering_script (escaped_dot escaped_original : List Char) : List Char :=
  vizjs_script_p0 ++ escaped_dot ++ vizjs_script_p1 ++ escaped_original
    ++ vizjs_script_p2 ++ escaped_original ++ vizjs_script_p3

/-- `MermaidRenderer.detect_external_diagram_requirements`. -/
def detect_external_diagram_requirements (code : List Char) : List Req :=
  let code_lower := pyLower (pyStrip code)
  (if startsWith (lc "xychart-beta") code_lower || containsSub (lc "xychart-beta") code_lower then
    [⟨lc "xychart-beta", lc "mermaid-xychart.min.js",
      lc "XY Chart (Beta) diagrams require the mermaid-xychart plugin"⟩] else [])
  ++ (if startsWith (lc "sankey") code_lower || containsSub (lc "sankey") code_lower then
    [⟨lc "sankey", lc "mermaid-sankey.min.js",
      lc "Sankey diagrams require the mermaid-sankey plugin"⟩] else [])
  ++ (if startsWith (lc "block-beta") code_lower || containsSub (lc "block-beta") code_lower then
    [⟨lc "block-beta", lc "Full Mermaid support for block diagrams",
      lc "Block diagrams (beta) may require a newer Mermaid version with full block diagram support"⟩] else [])
  ++ (if startsWith (lc "gitgraph") code_lower || containsSub (lc "gitgraph") code_lower then
    [⟨lc "gitgraph", lc "Full Mermaid support for git graphs",
      lc "Git graph diagrams may require a newer Mermaid version or additional configuration"⟩] else [])

/-- The missing-plugin filter of `MermaidRenderer.render_html`: external
requirements kept when their plugin asset is absent (block-beta and gitgraph
are always unsupported by the bundle). -/
def mermaid_missing_plugins (env : AssetEnv) (code : List Char) : List Req :=
  (detect_external_diagram_requirements code).filter (fun req =>
    if req.rtype = lc "xychart-beta" then optFalsy (env.loadAsset (lc "mermaid-xychart.min.js"))
    else if req.rtype = lc "sankey" then optFalsy (env.loadAsset (lc "mermaid-sankey.min.js"))
    else if req.rtype = lc "block-beta" then true
    else if req.rtype = lc "gitgraph" then true
    else false)

/-- The plugin concatenation of `MermaidRenderer.render_html`: available
external plugin sources are appended to the engine source. -/
def mermaid_js_bundled (env : AssetEnv) : List Char :=
  let mjs := (env.loadAsset (lc "mermaid.min.js")).getD []
  let mjs := if !optFalsy (env.loadAsset (lc "mermaid-xychart.min.js")) then
    mjs ++ lc "\n\n/* mermaid-xychart plugin */\n"
      ++ (env.loadAsset (lc "mermaid-xychart.min.js")).getD [] else mjs
  if !optFalsy (env.loadAsset (lc "mermaid-sankey.min.js")) then
    mjs ++ lc "\n\n/* mermaid-sankey plugin */\n"
      ++ (env.loadAsset (lc "mermaid-sankey.min.js")).getD [] else mjs

/-- `MermaidRenderer._populate_mermaid_template`: literal-token replacement of
the placeholders, then of the default render stub. -/
def populate_mermaid_template (template mermaid_js panzoom_js clean_code
    escaped_original mermaid_script : List Char) : List Char :=
  pyReplace default_render_function mermaid_script
    (pyReplace (lc "\x7bescaped_original\x7d") escaped_original
      (pyReplace (lc "\x7bdiagram_content\x7d")
        (lc "<div class=\"mermaid\">" ++ clean_code ++ lc "</div>")
        (pyReplace (lc "\x7bpanzoom_js_content\x7d") panzoom_js
          (pyReplace (lc "\x7bjs_content\x7d") mermaid_js template))))

/-- `MermaidRenderer.render_html`: asset checks, missing-plugin check,
template population.  The function never raises, hence always `Except.ok`. -/
def mermaid_render_html (env : AssetEnv) (code : List Char) :
    Except (List Char) (List Char) :=
  if optFalsy (env.loadAsset (lc "mermaid.min.js")) then
    Except.ok (error_div (lc "Mermaid.js not available"))
  else if optFalsy (env.loadAsset (lc "panzoom.min.js")) then
    Except.ok (error_div (lc "Panzoom.js not available"))
  else if !(mermaid_missing_plugins env code).isEmpty then
    Except.ok (generate_missing_plugin_error_html (mermaid_missing_plugins env code) code)
  else if optFalsy (env.loadTemplate TEMPLATE_UNIFIED) then
    Except.ok (error_div (lc "Unified template not available"))
  else
    Except.ok (populate_mermaid_template ((env.loadTemplate TEMPLATE_UNIFIED).getD [])
      (mermaid_js_bundled env) ((env.loadAsset (lc "panzoom.min.js")).getD [])
      (mermaid_clean_code code) (jsonDumps code)
      (generate_mermaid_rendering_script (mermaid_clean_code code) (jsonDumps code)))

/-- The inline template population of `BaseRenderer._render_unified_html`:
placeholder replacement ({diagram_content} becomes empty — the content is set
by the script), then the default render stub is replaced by the VizJS
script. -/
def unified_populate (template viz_js panzoom_js escaped_dot
    escaped_original : List Char) : List Char :=
  pyReplace default_render_function (vizjs_rendering_script escaped_dot escaped_original)
    (pyReplace (lc "\x7bescaped_original\x7d") escaped_original
      (pyReplace (lc "\x7bdiagram_content\x7d") []
        (pyReplace (lc "\x7bpanzoom_js_content\x7d") panzoom_js
          (pyReplace (lc "\x7bjs_content\x7d") viz_js template))))

/-- `BaseRenderer._render_unified_html`: the VizJS sources are concatenated
before the falsiness checks, so an absent viz-lite.js / viz-full.js raises a
`TypeError` (string + None), modelled as `Except.error` with Python's
message; an absent panzoom or template yields a bare error div. -/
def render_unified_html (env : AssetEnv) (dot_code original_code : List Char)
    (diagram_type : List Char := lc "diagram") : Except (List Char) (List Char) :=
  let _ := diagram_type
  match env.loadAsset (lc "viz-lite.js") with
  | none => Except.error (lc "unsupported operand type(s) for +: 'NoneType' and 'str'")
  | some vl =>
    match env.loadAsset (lc "viz-full.js") with
    | none => Except.error (lc "can only concatenate str (not \"NoneType\") to str")
    | some vf =>
      if optFalsy (env.loadAsset (lc "panzoom.min.js")) then
        Except.ok (lc "<div>Error: Panzoom.js not available</div>")
      else if (vl ++ lc "\n" ++ vf).isEmpty then
        Except.ok (lc "<div>Error: VizJS not available</div>")
      else if optFalsy (env.loadTemplate (lc "unified.html")) then
        Except.ok (lc "<div>Error: Unified template not available</div>")
      else
        Except.ok (unified_populate ((env.loadTemplate (lc "unified.html")).getD [])
          (vl ++ lc "\n" ++ vf) ((env.loadAsset (lc "panzoom.min.js")).getD [])
          (jsonDumps dot_code) (jsonDumps original_code))

/-- `PlantUMLRenderer.use_local_rendering` (set in `BaseRenderer.__init__`). -/
def use_local_rendering : Bool := true

/-- The try-block body of `PlantUMLRenderer.render_html` before the
except-clause wrapping. -/
def plantuml_render_attempt (env : AssetEnv) (code : List Char) :
    Except (List Char) (List Char) :=
  match convert_plantuml_to_dot code with
  | Except.error e => Except.error e
  | Except.ok dot_code =>
    if startsWith (lc "UNSUPPORTED_PLANTUML_TYPE:") dot_code then
      Except.ok (generate_unsupported_diagram_error_html
        [⟨lc "plantuml-" ++ (pySplitCharN ':' 2 dot_code).getD 1 (lc "unknown"),
          lc "Full PlantUML engine support",
          (pySplitCharN ':' 2 dot_code).getD 2 (lc "Advanced PlantUML features")
            ++ lc " are not supported by the VizJS-based PlantUML renderer"⟩] code)
    else render_unified_html env dot_code code (lc "plantuml")

/-- `PlantUMLRenderer.render_html`: convert to DOT, return the unsupported
document on the marker, else assemble; any exception of the try block is
re-raised as `Error rendering PlantUML diagram: …`. -/
def plantuml_render_html (env : AssetEnv) (code : List Char) :
    Except (List Char) (List Char) :=
  if !use_local_rendering then Except.error (lc "Local rendering disabled")
  else
    match plantuml_render_attempt env code with
    | Except.ok h => Except.ok h
    | Except.error e => Except.error (lc "Error rendering PlantUML diagram: " ++ e)

/-- Modelled from the spec: `GraphvizRenderer.render_html` is not among the
staged sources; the spec's assembler hands the normalized graph source and
the original text to the shared unified-template path. -/
def graphviz_render_html (env : AssetEnv) (code : List Char) :
    Except (List Char) (List Char) :=
  render_unified_html env code code (lc "graphviz")

/-- A (name, renderer) pair of `DiagramRenderer.renderers`. -/
structure Renderer where
  name : List Char
  detect : List Char → Bool
  clean : List Char → List Char
  render : AssetEnv → List Char → Except (List Char) (List Char)

/-- `DiagramRenderer.__init__`: the ordered renderer list — Mermaid first,
then PlantUML, then Graphviz. -/
def renderers : List Renderer :=
  [⟨lc "mermaid", mermaid_detect, mermaid_clean_code, mermaid_render_html⟩,
   ⟨lc "plantuml", plantuml_detect, plantuml_clean_code, plantuml_render_html⟩,
   ⟨lc "graphviz", graphviz_detect, graphviz_clean_code, graphviz_render_html⟩]

/-- `DiagramRenderer.detect_diagram_type`: the name of the first renderer
whose detector accepts, else `none`. -/
def detect_diagram_type (code : List Char) : Option (List Char) :=
  (renderers.find? (fun r => r.detect code)).map (fun r => r.name)

/-- The try-block body of `DiagramRenderer._render_single_diagram`: the
first-match loop over `renderers` unrolled (the same cascade as
`detect_diagram_type`); the found renderer cleans then renders, an undetected
block yields the no-type-detected document (which cannot raise). -/
def render_block_attempt (env : AssetEnv) (code : List Char) :
    Except (List Char) (List Char) :=
  if mermaid_detect code then mermaid_render_html env (mermaid_clean_code code)
  else if plantuml_detect code then plantuml_render_html env (plantuml_clean_code code)
  else if graphviz_detect code then graphviz_render_html env (graphviz_clean_code code)
  else Except.ok (generate_no_diagram_detected_error_html code)

/-- `DiagramRenderer._render_single_diagram`: the except-clause converts any
exception into the rendering-error (assembly-exception) document. -/
def render_single_diagram (env : AssetEnv) (code : List Char) : List Char :=
  match render_block_attempt env code with
  | Except.ok h => h
  | Except.error e => generate_rendering_error_html code e

/-- Case-insensitive prefix test (the extractor's regexes carry
`re.IGNORECASE`). -/
def ciHasPrefix (pat l : List Char) : Bool :=
  pyLower (l.take pat.length) == pyLower pat

/-- Indices of `'\n'` inside `w`, in descending order: the candidate
backtracking positions of the greedy `\s*` before the required `\n`. -/
def nlIdxsDesc (w : List Char) : List Nat :=
  ((List.range w.length).filter (fun i => w.getD i ' ' = '\n')).reverse

/-- Try the backtracking positions: after consuming through the newline at
`k`, the lazy group matches everything up to the first `\n`-fence close. -/
def fenceTryKs (r2 : List Char) : List Nat → Option (List Char × List Char)
  | [] => none
  | k :: ks =>
    let r3 := r2.drop (k + 1)
    match findIdxOfSub (lc "\n```") r3 with
    | some j => some (r3.take j, r3.drop (j + 4))
    | none => fenceTryKs r2 ks

/-- Match the regex ````<prefix>\s*\n(.*?)\n``` ` at the head of `s`,
returning the captured content and the remainder after the match. -/
def matchFence (pat s : List Char) : Option (List Char × List Char) :=
  if startsWith (lc "```") s then
    let r1 := s.drop 3
    if ciHasPrefix pat r1 then
      let r2 := r1.drop pat.length
      fenceTryKs r2 (nlIdxsDesc (r2.takeWhile isPySpace))
    else none
  else none

/-- `re.findall` for the fence pattern: scan left to right, non-overlapping
matches (fuel-driven; one character is consumed per step at minimum). -/
def findBlocksGo (pat : List Char) : Nat → List Char → List (List Char)
  | 0, _ => []
  | _, [] => []
  | Nat.succ fuel, s@(_ :: rest) =>
    match matchFence pat s with
    | some p => p.1 :: findBlocksGo pat fuel p.2
    | none => findBlocksGo pat fuel rest

/-- All fenced blocks for one prefix (the generic pattern is the empty
prefix). -/
def findBlocks (pat s : List Char) : List (List Char) := findBlocksGo pat s.length s

/-- The prefix list `DiagramRenderer.render_diagram_auto` passes to the
extractor. -/
def main_prefixes : List (List Char) :=
  [lc "mermaid", lc "plantuml", lc "uml", lc "dot", lc "graphviz"]

/-- `DiagramRenderer._extract_all_code_blocks`: per-prefix fenced blocks in
prefix-list order, then generic fenced blocks not contained in (or
containing) an already collected block; blank blocks dropped, the rest
trimmed. -/
def extract_all_code_blocks (code : List Char) (prefixes : List (List Char)) :
    List (List Char) :=
  let extracted := prefixes.flatMap (fun p => findBlocks p code)
  let generic_blocks := findBlocks [] code
  let all := generic_blocks.foldl (fun acc g =>
    if acc.any (fun p => containsSub g p || containsSub p g) then acc else acc ++ [g])
    extracted
  (all.filter (fun b => !(pyStrip b).isEmpty)).map pyStrip

/-- The block list `render_diagram_auto` iterates: the extracted blocks, or
the whole input as a single fallback block when none were found. -/
def blocksOf (code : List Char) : List (List Char) :=
  let all := extract_all_code_blocks code main_prefixes
  if all.isEmpty then [code] else all

/-- The document list `render_diagram_auto` joins: the per-block documents of
the non-blank blocks, keeping only non-empty results. -/
def rendered_parts (env : AssetEnv) (code : List Char) : List (List Char) :=
  (((blocksOf code).filter (fun b => !(pyStrip b).isEmpty)).map
    (render_single_diagram env)).filter (fun h => !h.isEmpty)

/-- `DiagramRenderer.render_diagram_auto`: render each non-blank block,
keep the non-empty documents, join with a newline; `none` when nothing was
rendered. -/
def render_diagram_auto (env : AssetEnv) (code : List Char) : Option (List Char) :=
  if (rendered_parts env code).isEmpty then none
  else some (pyJoin (lc "\n") (rendered_parts env code))

/-- The scanner succeeds exactly on infixes (any start index). -/
theorem findIdxOfSubGo_isSome_iff (pat : List Char) :
    ∀ (l : List Char) (i : Nat), (findIdxOfSubGo pat i l).isSome = true ↔ pat <:+: l := by
  intro l
  induction l with
  | nil =>
    intro i
    rw [findIdxOfSubGo]
    by_cases h : pat.isPrefixOf []
    · simp only [h, if_pos, Option.isSome_some, true_iff]
      exact (List.isPrefixOf_iff_prefix.mp h).isInfix
    · simp only [h, Bool.false_eq_true, if_false, Option.isSome_none, false_iff]
      intro hinf
      exact h (List.isPrefixOf_iff_prefix.mpr (List.infix_nil.mp hinf ▸ List.nil_prefix))
  | cons x xs ih =>
    intro i
    rw [findIdxOfSubGo]
    by_cases h : pat.isPrefixOf (x :: xs)
    · simp only [h, if_pos, Option.isSome_some, true_iff]
      exact (List.isPrefixOf_iff_prefix.mp h).isInfix
    · simp only [h, Bool.false_eq_true, if_false]
      rw [ih (i + 1)]
      constructor
      · intro hi
        exact List.infix_cons_iff.mpr (Or.inr hi)
      · intro hinf
        rcases List.infix_cons_iff.mp hinf with hp | hi
        · exact absurd (List.isPrefixOf_iff_prefix.mpr hp) h
        · exact hi

/-- `findIdxOfSub` succeeds exactly on infixes. -/
theorem findIdxOfSub_isSome_iff (pat : List Char) :
    ∀ l : List Char, (findIdxOfSub pat l).isSome = true ↔ pat <:+: l := by
  intro l
  exact findIdxOfSubGo_isSome_iff pat l 0

/-- `containsSub` is the Boolean of list-infix. -/
theorem containsSub_iff {pat l : List Char} : containsSub pat l = true ↔ pat <:+: l :=
  findIdxOfSub_isSome_iff pat l

/-- The head of a `dropWhile` result never satisfies the predicate. -/
theorem head_dropWhile_false {p : Char → Bool} :
    ∀ {l : List Char} {c : Char}, (l.dropWhile p).head? = some c → p c = false := by
  intro l
  induction l with
  | nil => intro c h; simp [List.dropWhile] at h
  | cons x xs ih =>
    intro c h
    rw [List.dropWhile_cons] at h
    by_cases hx : p x
    · rw [if_pos hx] at h; exact ih h
    · rw [if_neg hx] at h
      simp only [List.head?_cons, Option.some.injEq] at h
      subst h; exact Bool.eq_false_iff.mpr hx

/-- A list whose first and last characters are not stripped is a `pyStrip`
fixed point. -/
theorem strip_eq_self {l : List Char}
    (hh : ∀ c, l.head? = some c → isPySpace c = false)
    (hl : ∀ c, l.getLast? = some c → isPySpace c = false) : pyStrip l = l := by
  have h1 : l.dropWhile isPySpace = l := by
    cases l with
    | nil => rfl
    | cons x xs => rw [List.dropWhile_cons, if_neg]; simp [hh x rfl]
  have h2 : l.reverse.dropWhile isPySpace = l.reverse := by
    cases hr : l.reverse with
    | nil => rfl
    | cons y ys =>
      rw [List.dropWhile_cons, if_neg]
      have hy : l.getLast? = some y := by
        rw [List.getLast?_eq_head?_reverse, hr]; rfl
      simp [hl y hy]
  unfold pyStrip
  rw [h1, h2, List.reverse_reverse]

/-- The first character of a `pyStrip` result is not whitespace. -/
theorem head_strip_not_space {l : List Char} {c : Char}
    (h : (pyStrip l).head? = some c) : isPySpace c = false := by
  unfold pyStrip at h
  have hsuf : (l.dropWhile isPySpace).reverse.dropWhile isPySpace
      <:+ (l.dropWhile isPySpace).reverse := List.dropWhile_suffix _
  have hpre : ((l.dropWhile isPySpace).reverse.dropWhile isPySpace).reverse
      <+: l.dropWhile isPySpace := by
    have := List.reverse_prefix.mpr hsuf
    rwa [List.reverse_reverse] at this
  rcases hpre with ⟨t, ht⟩
  cases hBr : ((l.dropWhile isPySpace).reverse.dropWhile isPySpace).reverse with
  | nil => rw [hBr] at h; simp at h
  | cons d ds =>
    rw [hBr] at h
    simp only [List.head?_cons, Option.some.injEq] at h
    rw [hBr] at ht
    apply head_dropWhile_false (p := isPySpace) (l := l)
    rw [← ht]
    simp [h]

/-- The last character of a `pyStrip` result is not whitespace. -/
theorem last_strip_not_space {l : List Char} {c : Char}
    (h : (pyStrip l).getLast? = some c) : isPySpace c = false := by
  unfold pyStrip at h
  rw [List.getLast?_eq_head?_reverse, List.reverse_reverse] at h
  exact head_dropWhile_false h

/-- `pyStrip` is idempotent. -/
theorem pyStrip_idem (l : List Char) : pyStrip (pyStrip l) = pyStrip l :=
  strip_eq_self (fun _ h => head_strip_not_space h) (fun _ h => last_strip_not_space h)

/-- A character outside `old` survives `pyReplaceGo`. -/
theorem mem_pyReplaceGo {c : Char} {old new : List Char} (hold : c ∉ old) :
    ∀ fuel l, c ∈ l → c ∈ pyReplaceGo old new fuel l := by
  intro fuel
  induction fuel with
  | zero => intro l hl; simpa [pyReplaceGo] using hl
  | succ f ih =>
    intro l hl
    cases l with
    | nil => simp at hl
    | cons x rest =>
      by_cases hp : old.isPrefixOf (x :: rest)
      · rcases List.isPrefixOf_iff_prefix.mp hp with ⟨t, ht⟩
        have hdrop : (x :: rest).drop old.length = t := by
          rw [← ht, List.drop_left]
        simp only [pyReplaceGo, hp, if_pos]
        have hct : c ∈ t := by
          rcases List.mem_append.mp (by rw [ht]; exact hl) with h | h
          · exact absurd h hold
          · exact h
        exact List.mem_append.mpr (Or.inr (by rw [hdrop]; exact ih t hct))
      · simp only [pyReplaceGo, hp, if_neg, not_false_iff]
        rcases List.mem_cons.mp hl with h | h
        · exact List.mem_cons.mpr (Or.inl h)
        · exact List.mem_cons.mpr (Or.inr (ih rest h))

/-- A character outside `old` survives `pyReplace`. -/
theorem mem_pyReplace {c : Char} {old new l : List Char} (hold : c ∉ old)
    (hl : c ∈ l) : c ∈ pyReplace old new l :=
  mem_pyReplaceGo hold _ l hl

/-- Unfolding `pyJoin` at two or more parts. -/
theorem pyJoin_cons₂ (sep a b : List Char) (l : List (List Char)) :
    pyJoin sep (a :: b :: l) = a ++ sep ++ pyJoin sep (b :: l) := rfl

/-- Every joined part is an infix of the join. -/
theorem mem_infix_pyJoin {sep : List Char} :
    ∀ {parts : List (List Char)} {x : List Char}, x ∈ parts → x <:+: pyJoin sep parts := by
  intro parts
  induction parts with
  | nil => intro x hx; simp at hx
  | cons y ys ih =>
    intro x hx
    cases ys with
    | nil =>
      rcases List.mem_cons.mp hx with h | h
      · subst h; simp [pyJoin]
      · simp at h
    | cons z zs =>
      rcases List.mem_cons.mp hx with h | h
      · subst h
        rw [pyJoin_cons₂]
        exact ⟨[], sep ++ pyJoin sep (z :: zs), by simp [List.append_assoc]⟩
      · refine List.IsInfix.trans (ih h) ?_
        rw [pyJoin_cons₂]
        exact ⟨y ++ sep, [], by simp [List.append_assoc]⟩

/-- `endsWith` is the Boolean of list-suffix. -/
theorem endsWith_iff {pat l : List Char} : endsWith pat l = true ↔ pat <:+ l := by
  unfold endsWith
  rw [List.isPrefixOf_iff_prefix, List.reverse_prefix]

/-- `startsWith` is the Boolean of list-prefix. -/
theorem startsWith_iff {pat l : List Char} : startsWith pat l = true ↔ pat <+: l := by
  unfold startsWith
  exact List.isPrefixOf_iff_prefix

/-- A trimmed input that already carries both UML markers is a
`plantuml_clean_code` fixed point. -/
theorem plantuml_clean_fixed {y : List Char}
    (h1 : pyStrip y = y) (h2 : startsWith (lc "@start") y = true)
    (h3 : endsWith (lc "@enduml") y = true) : plantuml_clean_code y = y := by
  simp only [plantuml_clean_code]
  rw [h1, if_pos h2, if_pos h3]

/-- A list starting with `@start…` has head `'@'`, hence no stripped head. -/
theorem head_not_space_of_at {y : List Char}
    (h : startsWith (lc "@start") y = true) :
    ∀ c, y.head? = some c → isPySpace c = false := by
  intro c hc
  rcases startsWith_iff.mp h with ⟨t, ht⟩
  rw [← ht] at hc
  simp [lc] at hc
  rw [← hc]
  decide

/-- A list ending with `…@enduml` has last character `'l'`, hence no
stripped tail. -/
theorem last_not_space_of_enduml {y : List Char}
    (h : endsWith (lc "@enduml") y = true) :
    ∀ c, y.getLast? = some c → isPySpace c = false := by
  intro c hc
  rcases endsWith_iff.mp h with ⟨t, ht⟩
  rw [← ht, List.getLast?_eq_head?_reverse, List.reverse_append] at hc
  simp [lc] at hc
  rw [← hc]
  decide

/-- The UML normalizer always emits the `@start` prefix. -/
theorem plantuml_clean_starts (x : List Char) :
    startsWith (lc "@start") (plantuml_clean_code x) = true := by
  simp only [plantuml_clean_code]
  by_cases hs : startsWith (lc "@start") (pyStrip x) = true
  · rw [if_pos hs]
    split
    · exact hs
    · rcases startsWith_iff.mp hs with ⟨t, ht⟩
      exact startsWith_iff.mpr ⟨t ++ lc "\n@enduml", by rw [← ht]; simp⟩
  · rw [if_neg hs]
    split
    · exact startsWith_iff.mpr ⟨lc "uml\n" ++ pyStrip x, by rw [← List.append_assoc]; rfl⟩
    · exact startsWith_iff.mpr
        ⟨(lc "uml\n" ++ pyStrip x) ++ lc "\n@enduml", by
          rw [← List.append_assoc, ← List.append_assoc]; rfl⟩

/-- The UML normalizer always emits the `@enduml` suffix. -/
theorem plantuml_clean_ends (x : List Char) :
    endsWith (lc "@enduml") (plantuml_clean_code x) = true := by
  have key : ∀ c2 : List Char, endsWith (lc "@enduml")
      (if endsWith (lc "@enduml") c2 = true then c2 else c2 ++ lc "\n@enduml") = true := by
    intro c2
    split
    · next h => exact h
    · exact endsWith_iff.mpr ⟨c2 ++ ['\n'], by rw [List.append_assoc]; rfl⟩
  simp only [plantuml_clean_code]
  exact key _

/-- The UML normalizer is idempotent (C7's interesting case). -/
theorem plantuml_clean_code_idem (x : List Char) :
    plantuml_clean_code (plantuml_clean_code x) = plantuml_clean_code x := by
  have hs := plantuml_clean_starts x
  have he := plantuml_clean_ends x
  exact plantuml_clean_fixed
    (strip_eq_self (head_not_space_of_at hs) (last_not_space_of_enduml he)) hs he

/-- C1: the detector cascade tries the Mermaid detector first, then the
PlantUML detector, then the Graphviz detector, and returns the name of the
first detector that accepts (or `none` when all refuse); in particular a
text the Mermaid detector accepts is always classified `mermaid`. -/
theorem C1_detect_cascade_order (code : List Char) :
    detect_diagram_type code =
      (if mermaid_detect code then some (lc "mermaid")
       else if plantuml_detect code then some (lc "plantuml")
       else if graphviz_detect code then some (lc "graphviz")
       else none) := by
  by_cases h1 : mermaid_detect code
  · simp [detect_diagram_type, renderers, List.find?, h1]
  · by_cases h2 : plantuml_detect code
    · simp [detect_diagram_type, renderers, List.find?, h1, h2]
    · by_cases h3 : graphviz_detect code
      · simp [detect_diagram_type, renderers, List.find?, h1, h2, h3]
      · simp [detect_diagram_type, renderers, List.find?, h1, h2, h3]

/-- C2 (evaluation at the failing input): for the spec's UML sequence sample
the cascade returns `mermaid` — the Mermaid weak participant rule fires on
the colon-labelled arrow — although the PlantUML detector accepts the text
(strong marker `@startuml`); the translator itself does produce the expected
DOT with exactly the node statements `Alice`, `Bob` and one edge labelled
`Hi`. -/
theorem C2_detect_and_translate_eval :
    detect_diagram_type
        (lc "@startuml\nparticipant Alice\nparticipant Bob\nAlice -> Bob: Hi\n@enduml") =
      some (lc "mermaid")
    ∧ plantuml_detect
        (lc "@startuml\nparticipant Alice\nparticipant Bob\nAlice -> Bob: Hi\n@enduml") = true
    ∧ convert_plantuml_to_dot
        (lc "@startuml\nparticipant Alice\nparticipant Bob\nAlice -> Bob: Hi\n@enduml") =
      Except.ok (lc "digraph sequence \x7b\n  rankdir=LR;\n  node [shape=box, style=filled, fillcolor=white];\n  \"Alice\";\n  \"Bob\";\n  \"Alice\" -> \"Bob\" [label=\"Hi\"];\n\x7d") :=
  ⟨by rfl, by rfl, by rfl⟩

/-- C3 (evaluation at the failing input): `@startmindmap` is classified
`mermaid` by the cascade (the Mermaid strong indicator `mindmap` matches as
a substring of `@startmindmap`), although the PlantUML detector accepts it
and the PlantUML unsupported-type table names the mind-map feature. -/
theorem C3_mindmap_detect_eval :
    detect_diagram_type (lc "@startmindmap\n* root\n@endmindmap") = some (lc "mermaid")
    ∧ plantuml_detect (lc "@startmindmap\n* root\n@endmindmap") = true
    ∧ detect_unsupported_plantuml_type
        (plantuml_clean_code (lc "@startmindmap\n* root\n@endmindmap")) =
      lc "UNSUPPORTED_PLANTUML_TYPE:mindmap:Mind maps" :=
  ⟨by rfl, by rfl, by rfl⟩

/-- C7: normalization is idempotent for all three grammar kinds: trimming
twice is trimming once, and the UML normalizer's output is already trimmed
and carries both markers, so a second pass is the identity. -/
theorem C7_normalize_idempotent (x : List Char) :
    mermaid_clean_code (mermaid_clean_code x) = mermaid_clean_code x
    ∧ plantuml_clean_code (plantuml_clean_code x) = plantuml_clean_code x
    ∧ graphviz_clean_code (graphviz_clean_code x) = graphviz_clean_code x :=
  ⟨pyStrip_idem x, plantuml_clean_code_idem x, pyStrip_idem x⟩

/-- A prefix of a bigger append is a prefix of the whole. -/
theorem prefix_append_left {l a b : List Char} (h : l <+: a) : l <+: a ++ b :=
  h.trans (a.prefix_append b)

/-- A list is an infix of anything exhibiting it in the middle. -/
theorem infix_mid (m a b : List Char) : m <:+: a ++ m ++ b := ⟨a, b, rfl⟩

/-- C4 counterexample: the pipeline's no-type-detected document (produced
here by `render_single_diagram` on an undetectable block) does not contain
the status marker, so not all four error documents carry it. -/
theorem C4_counterexample :
    render_single_diagram ⟨fun _ => some (lc "x"), fun _ => none⟩ (lc "just some text") =
      generate_no_diagram_detected_error_html (lc "just some text")
    ∧ containsSub status_marker
        (generate_no_diagram_detected_error_html (lc "just some text")) = false :=
  ⟨by rfl, by rfl⟩

/-- C4 amended: only the assembly-exception and the unsupported-construct
documents carry the `diagram-render-status` marker (for every message, echoed
source and plugin list); the no-type-detected document and the missing-asset
error divs do not (shown at concrete arguments). -/
theorem C4_amended (code msg : List Char) (plugins : List Req) :
    status_marker <:+: generate_rendering_error_html code msg
    ∧ status_marker <:+: generate_unsupported_diagram_error_html plugins code
    ∧ containsSub status_marker
        (generate_no_diagram_detected_error_html (lc "just some text")) = false
    ∧ containsSub status_marker (error_div (lc "Mermaid.js not available")) = false
    ∧ containsSub status_marker (error_div (lc "Panzoom.js not available")) = false
    ∧ containsSub status_marker (error_div (lc "Unified template not available")) = false := by
  refine ⟨?_, ?_, by rfl, by rfl, by rfl, by rfl⟩
  · have hp : rendering_error_pre <+: generate_rendering_error_html code msg := by
      unfold generate_rendering_error_html
      exact prefix_append_left (prefix_append_left (prefix_append_left
        (List.prefix_append _ _)))
    exact List.IsInfix.trans (infix_mid status_marker _ _) hp.isInfix
  · have hp : unsupported_docpre <+: generate_unsupported_diagram_error_html plugins code := by
      simp only [generate_unsupported_diagram_error_html]
      exact prefix_append_left (prefix_append_left (prefix_append_left
        (List.prefix_append _ _)))
    exact List.IsInfix.trans (infix_mid status_marker _ _) hp.isInfix
/-- Two-block input, flowchart-family fence first. -/
def c5_m_first : List Char :=
  lc "```mermaid\ngraph TD\nA-->B\n```\n```plantuml\n@startuml\nA -> B\n@enduml\n```"

/-- Two-block input, UML fence first. -/
def c5_p_first : List Char :=
  lc "```plantuml\n@startuml\nA -> B\n@enduml\n```\n```mermaid\ngraph TD\nA-->B\n```"

/-- The flowchart-family block body. -/
def c5_b1 : List Char := lc "graph TD\nA-->B"

/-- The UML block body. -/
def c5_b2 : List Char := lc "@startuml\nA -> B\n@enduml"

/-- C5 counterexample: with the UML fence first in the source (the UML block
body occurs at index 12, the flowchart body only at index 52), the extractor
still returns the flowchart block first — the per-prefix passes run in the
fixed prefix order `mermaid, plantuml, …`, not in source order. -/
theorem C5_counterexample :
    extract_all_code_blocks c5_p_first main_prefixes = [c5_b1, c5_b2]
    ∧ findIdxOfSub c5_b2 c5_p_first = some 12
    ∧ findIdxOfSub c5_b1 c5_p_first = some 52 :=
  ⟨by rfl, by rfl, by rfl⟩

/-- C5 amended: extraction order is the fixed prefix order (source order only
within one prefix).  When the flowchart block precedes the UML block the two
orders coincide: extraction returns the blocks in source order and `renderAll`
concatenates their documents, newline-separated, in that same order; with the
UML block first the extractor returns the same prefix-ordered list. -/
theorem C5_amended (env : AssetEnv)
    (h1 : render_single_diagram env c5_b1 ≠ [])
    (h2 : render_single_diagram env c5_b2 ≠ []) :
    extract_all_code_blocks c5_m_first main_prefixes = [c5_b1, c5_b2]
    ∧ render_diagram_auto env c5_m_first =
        some (render_single_diagram env c5_b1 ++ lc "\n" ++ render_single_diagram env c5_b2)
    ∧ extract_all_code_blocks c5_p_first main_prefixes = [c5_b1, c5_b2] := by
  refine ⟨by rfl, ?_, by rfl⟩
  have e1 : (!(render_single_diagram env c5_b1).isEmpty) = true := by
    simpa [List.isEmpty_iff] using h1
  have e2 : (!(render_single_diagram env c5_b2).isEmpty) = true := by
    simpa [List.isEmpty_iff] using h2
  have hparts : rendered_parts env c5_m_first =
      [render_single_diagram env c5_b1, render_single_diagram env c5_b2] := by
    unfold rendered_parts
    have hb : blocksOf c5_m_first = [c5_b1, c5_b2] := by rfl
    rw [hb]
    have hf : [c5_b1, c5_b2].filter (fun b => !(pyStrip b).isEmpty) = [c5_b1, c5_b2] := by rfl
    rw [hf]
    simp only [List.map]
    simp [List.filter, e1, e2]
  unfold render_diagram_auto
  rw [hparts]
  have hne : ([render_single_diagram env c5_b1,
      render_single_diagram env c5_b2]).isEmpty = false := rfl
  rw [hne]
  simp only [Bool.false_eq_true, if_false]
  rfl

/-- A concrete environment for the C5 witness: every asset loads as `x`, no
template loads. -/
def c5_env : AssetEnv := ⟨fun _ => some (lc "x"), fun _ => none⟩

/-- Witness for C5's amended theorem at the concrete environment. -/
theorem C5_amended_witness :
    extract_all_code_blocks c5_m_first main_prefixes = [c5_b1, c5_b2]
    ∧ render_diagram_auto c5_env c5_m_first =
        some (render_single_diagram c5_env c5_b1 ++ lc "\n"
          ++ render_single_diagram c5_env c5_b2)
    ∧ extract_all_code_blocks c5_p_first main_prefixes = [c5_b1, c5_b2] :=
  C5_amended c5_env (by decide) (by decide)

/-- The sequence-branch DOT always opens with the directed-graph header and
closes with the brace, whatever was collected. -/
theorem seq_dot_string_shape (ps : List (List Char))
    (cs : List (List Char × List Char × List Char)) :
    startsWith (lc "digraph ") (seq_dot_string ps cs) = true
    ∧ endsWith (lc "\x7d") (seq_dot_string ps cs) = true := by
  constructor
  · apply startsWith_iff.mpr
    unfold seq_dot_string
    exact prefix_append_left (prefix_append_left (prefix_append_left
      (prefix_append_left (prefix_append_left ⟨lc "sequence \x7b\n", by rfl⟩))))
  · apply endsWith_iff.mpr
    exact ⟨_, rfl⟩

/-- The class-branch DOT always opens with the directed-graph header and
closes with the brace. -/
theorem class_dot_string_shape (cls : List (List Char))
    (rels : List (List Char × List Char)) :
    startsWith (lc "digraph ") (class_dot_string cls rels) = true
    ∧ endsWith (lc "\x7d") (class_dot_string cls rels) = true := by
  constructor
  · apply startsWith_iff.mpr
    unfold class_dot_string
    exact prefix_append_left (prefix_append_left (prefix_append_left
      (prefix_append_left ⟨lc "classes \x7b\n", by rfl⟩)))
  · apply endsWith_iff.mpr
    exact ⟨_, rfl⟩

/-- C6 counterexample: the safety net does not exist — translate raises an
`IndexError` on a bare participant declaration instead of returning anything,
and a trigger word without any collectible declaration yields an empty graph
(header and closing brace, zero node and zero edge statements), not the
unsupported-classification fallback. -/
theorem C6_counterexample :
    convert_plantuml_to_dot (lc "participant") =
      Except.error (lc "list index out of range")
    ∧ convert_plantuml_to_dot (lc "the participants meet") =
      Except.ok (lc "digraph sequence \x7b\n  rankdir=LR;\n  node [shape=box, style=filled, fillcolor=white];\n\x7d")
    ∧ (lc "digraph sequence \x7b\n  rankdir=LR;\n  node [shape=box, style=filled, fillcolor=white];\n\x7d") =
      seq_dot_string [] [] :=
  ⟨by rfl, by rfl, by rfl⟩

/-- C6 amended: `translate` can raise (index errors escape to the caller);
every non-raising result either is the `UNSUPPORTED_PLANTUML_TYPE` descriptor
or opens with `digraph ` and closes with the brace — but possibly with zero
node and edge statements, since the empty collection does not fall back to
the unsupported classification. -/
theorem C6_amended (code r : List Char)
    (h : convert_plantuml_to_dot code = Except.ok r) :
    startsWith (lc "UNSUPPORTED_PLANTUML_TYPE:") r = true
    ∨ (startsWith (lc "digraph ") r = true ∧ endsWith (lc "\x7d") r = true) := by
  unfold convert_plantuml_to_dot at h
  split at h
  · unfold convert_sequence_to_dot at h
    cases hc : seq_collect (pySplitChar '\n' (plantuml_clean_code code)) with
    | error e => rw [hc] at h; exact absurd h (by simp)
    | ok pc =>
      rw [hc] at h
      simp only [Except.ok.injEq] at h
      subst h
      exact Or.inr (seq_dot_string_shape pc.1 pc.2)
  · split at h
    · unfold convert_class_to_dot at h
      cases hc : class_collect (pySplitChar '\n' (plantuml_clean_code code)) with
      | error e => rw [hc] at h; exact absurd h (by simp)
      | ok pc =>
        rw [hc] at h
        simp only [Except.ok.injEq] at h
        subst h
        exact Or.inr (class_dot_string_shape pc.1 pc.2)
    · split at h
      · next hmark =>
        cases hidx : pyIndex (pySplitCharN ':' 2
            (detect_unsupported_plantuml_type (plantuml_clean_code code))) 1 with
        | error e => rw [hidx] at h; exact absurd h (by simp)
        | ok p1 =>
          rw [hidx] at h
          have h' : (if p1 ≠ lc "unknown" then
              Except.ok (detect_unsupported_plantuml_type (plantuml_clean_code code))
            else Except.ok generate_fallback_dot) = Except.ok r := h
          split at h'
          · have hr : detect_unsupported_plantuml_type (plantuml_clean_code code) = r :=
              by injection h'
            subst hr
            exact Or.inl hmark
          · have hr : generate_fallback_dot = r := by injection h'
            subst hr
            exact Or.inr ⟨by rfl, by rfl⟩
      · have hr : generate_fallback_dot = r := by injection h
        subst hr
        exact Or.inr ⟨by rfl, by rfl⟩

/-- Witness for C6's amended theorem: the shape disjunction at a concrete
sequence-diagram input. -/
theorem C6_amended_witness :
    startsWith (lc "UNSUPPORTED_PLANTUML_TYPE:")
      (lc "digraph sequence \x7b\n  rankdir=LR;\n  node [shape=box, style=filled, fillcolor=white];\n  \"A\" -> \"B\";\n\x7d") = true
    ∨ (startsWith (lc "digraph ")
        (lc "digraph sequence \x7b\n  rankdir=LR;\n  node [shape=box, style=filled, fillcolor=white];\n  \"A\" -> \"B\";\n\x7d") = true
      ∧ endsWith (lc "\x7d")
        (lc "digraph sequence \x7b\n  rankdir=LR;\n  node [shape=box, style=filled, fillcolor=white];\n  \"A\" -> \"B\";\n\x7d") = true) :=
  C6_amended (lc "@startuml\nA -> B\n@enduml") _ (by rfl)

/-- An append with a non-empty left part is non-empty. -/
theorem ne_nil_left {a b : List Char} (h : a ≠ []) : a ++ b ≠ [] :=
  fun hc => h (List.append_eq_nil.mp hc).1

/-- The assembly-exception document is never the empty string. -/
theorem rendering_error_html_ne_nil (a m : List Char) :
    generate_rendering_error_html a m ≠ [] := by
  unfold generate_rendering_error_html
  exact ne_nil_left (ne_nil_left (ne_nil_left (ne_nil_left (by decide))))

/-- C8: any exception raised while rendering a block is caught inside the
per-block step and replaced by the assembly-exception document, which embeds
the exception message and the block's source; the per-block documents of all
other non-blank blocks are still rendered and appear in the concatenated
output. -/
theorem C8_fault_isolation (env : AssetEnv) (input b e : List Char)
    (hexc : render_block_attempt env b = Except.error e)
    (hb : b ∈ blocksOf input) (hnb : pyStrip b ≠ []) :
    render_single_diagram env b = generate_rendering_error_html b e
    ∧ e <:+: generate_rendering_error_html b e
    ∧ b <:+: generate_rendering_error_html b e
    ∧ ∃ out, render_diagram_auto env input = some out
        ∧ ∀ b2 ∈ blocksOf input, pyStrip b2 ≠ [] →
            render_single_diagram env b2 <:+: out := by
  have hdoc : render_single_diagram env b = generate_rendering_error_html b e := by
    unfold render_single_diagram
    rw [hexc]
  refine ⟨hdoc, ?_, ?_, ?_⟩
  · exact ⟨rendering_error_pre, rendering_error_mid ++ b ++ rendering_error_post,
      by simp [generate_rendering_error_html, List.append_assoc]⟩
  · exact ⟨rendering_error_pre ++ e ++ rendering_error_mid, rendering_error_post,
      by simp [generate_rendering_error_html, List.append_assoc]⟩
  · have hmem0 : render_single_diagram env b ∈
        ((blocksOf input).filter (fun bb => !(pyStrip bb).isEmpty)).map
          (render_single_diagram env) :=
      List.mem_map_of_mem _
        (List.mem_filter.mpr ⟨hb, by simpa [List.isEmpty_iff] using hnb⟩)
    have hdne : (!(render_single_diagram env b).isEmpty) = true := by
      rw [hdoc]
      simpa [List.isEmpty_iff] using rendering_error_html_ne_nil b e
    have hmem : render_single_diagram env b ∈ rendered_parts env input :=
      List.mem_filter.mpr ⟨hmem0, hdne⟩
    have hne : (rendered_parts env input).isEmpty = false := by
      simpa [List.isEmpty_iff] using List.ne_nil_of_mem hmem
    refine ⟨pyJoin (lc "\n") (rendered_parts env input), ?_, ?_⟩
    · unfold render_diagram_auto
      rw [hne]
      simp
    · intro b2 hb2 hnb2
      by_cases hd2 : render_single_diagram env b2 = []
      · rw [hd2]; exact List.nil_infix
      · have hmem2 : render_single_diagram env b2 ∈ rendered_parts env input :=
          List.mem_filter.mpr
            ⟨List.mem_map_of_mem _
              (List.mem_filter.mpr ⟨hb2, by simpa [List.isEmpty_iff] using hnb2⟩),
             by simpa [List.isEmpty_iff] using hd2⟩
        exact mem_infix_pyJoin hmem2

/-- Witness for C8 at a concrete input: a bare `actor` line makes the
PlantUML renderer raise `IndexError`, which the facade converts into the
assembly-exception document. -/
theorem C8_fault_isolation_witness :
    render_single_diagram ⟨fun _ => some (lc "x"), fun _ => none⟩
        (lc "@startuml\nactor\n@enduml") =
      generate_rendering_error_html (lc "@startuml\nactor\n@enduml")
        (lc "Error rendering PlantUML diagram: list index out of range")
    ∧ lc "Error rendering PlantUML diagram: list index out of range" <:+:
        generate_rendering_error_html (lc "@startuml\nactor\n@enduml")
          (lc "Error rendering PlantUML diagram: list index out of range")
    ∧ lc "@startuml\nactor\n@enduml" <:+:
        generate_rendering_error_html (lc "@startuml\nactor\n@enduml")
          (lc "Error rendering PlantUML diagram: list index out of range")
    ∧ ∃ out, render_diagram_auto ⟨fun _ => some (lc "x"), fun _ => none⟩
          (lc "@startuml\nactor\n@enduml") = some out
        ∧ ∀ b2 ∈ blocksOf (lc "@startuml\nactor\n@enduml"), pyStrip b2 ≠ [] →
            render_single_diagram ⟨fun _ => some (lc "x"), fun _ => none⟩ b2 <:+: out :=
  C8_fault_isolation ⟨fun _ => some (lc "x"), fun _ => none⟩
    (lc "@startuml\nactor\n@enduml") (lc "@startuml\nactor\n@enduml")
    (lc "Error rendering PlantUML diagram: list index out of range")
    (by rfl) (by decide) (by decide)

/-- C9 counterexample: with the flowchart engine script absent, assembly
returns the bare inline div — no exception, but not a complete, marked
document (no status marker, no doctype). -/
theorem C9_counterexample :
    mermaid_render_html
        ⟨fun n => if n = lc "mermaid.min.js" then none else some (lc "x"),
         fun _ => some (lc "<html>T</html>")⟩
        (lc "graph TD\nA-->B") =
      Except.ok (lc "<div>Error: Mermaid.js not available</div>")
    ∧ containsSub status_marker (lc "<div>Error: Mermaid.js not available</div>") = false
    ∧ containsSub (lc "<!DOCTYPE") (lc "<div>Error: Mermaid.js not available</div>") = false :=
  ⟨by rfl, by rfl, by rfl⟩

/-- C9 amended: a missing engine asset does not raise in the flowchart path —
it returns a short unmarked error div rather than a complete marked document;
in the unified (UML/graph) path a missing viz-lite.js raises a `TypeError`
inside assembly (string + None), which the PlantUML renderer re-raises
wrapped, leaving the facade's per-block handler to catch it. -/
theorem C9_amended :
    (∀ env code, env.loadAsset (lc "mermaid.min.js") = none →
      mermaid_render_html env code =
        Except.ok (error_div (lc "Mermaid.js not available")))
    ∧ (∀ env dot orig ty, env.loadAsset (lc "viz-lite.js") = none →
      render_unified_html env dot orig ty =
        Except.error (lc "unsupported operand type(s) for +: 'NoneType' and 'str'"))
    ∧ (∀ env code dot, env.loadAsset (lc "viz-lite.js") = none →
      convert_plantuml_to_dot code = Except.ok dot →
      startsWith (lc "UNSUPPORTED_PLANTUML_TYPE:") dot = false →
      plantuml_render_html env code =
        Except.error (lc "Error rendering PlantUML diagram: unsupported operand type(s) for +: 'NoneType' and 'str'")) := by
  refine ⟨?_, ?_, ?_⟩
  · intro env code h
    unfold mermaid_render_html
    rw [h]
    rfl
  · intro env dot orig ty h
    unfold render_unified_html
    rw [h]
  · intro env code dot h hconv hmark
    have hat : plantuml_render_attempt env code =
        Except.error (lc "unsupported operand type(s) for +: 'NoneType' and 'str'") := by
      unfold plantuml_render_attempt
      rw [hconv]
      simp only [hmark, Bool.false_eq_true, if_false]
      unfold render_unified_html
      rw [h]
    unfold plantuml_render_html
    rw [hat]
    rfl

/-- Witness for C9's amended theorem at concrete environments and inputs. -/
theorem C9_amended_witness :
    mermaid_render_html ⟨fun _ => none, fun _ => none⟩ (lc "graph TD\nA-->B") =
      Except.ok (error_div (lc "Mermaid.js not available"))
    ∧ render_unified_html ⟨fun _ => none, fun _ => none⟩ (lc "digraph G \x7b\x7d")
        (lc "digraph G \x7b\x7d") (lc "graphviz") =
      Except.error (lc "unsupported operand type(s) for +: 'NoneType' and 'str'")
    ∧ plantuml_render_html ⟨fun _ => none, fun _ => none⟩ (lc "@startuml\nA -> B\n@enduml") =
      Except.error (lc "Error rendering PlantUML diagram: unsupported operand type(s) for +: 'NoneType' and 'str'") :=
  ⟨C9_amended.1 ⟨fun _ => none, fun _ => none⟩ (lc "graph TD\nA-->B") rfl,
   C9_amended.2.1 ⟨fun _ => none, fun _ => none⟩ (lc "digraph G \x7b\x7d")
     (lc "digraph G \x7b\x7d") (lc "graphviz") rfl,
   C9_amended.2.2 ⟨fun _ => none, fun _ => none⟩ (lc "@startuml\nA -> B\n@enduml")
     (lc "digraph sequence \x7b\n  rankdir=LR;\n  node [shape=box, style=filled, fillcolor=white];\n  \"A\" -> \"B\";\n\x7d")
     rfl (by rfl) (by rfl)⟩

/-- Well-formedness of the asset environment: every template that loads
contains a `<` character (true of any HTML template; the placeholder tokens
replaced during population contain no `<`). -/
def envOk (env : AssetEnv) : Prop :=
  ∀ n t, env.loadTemplate n = some t → '<' ∈ t

/-- `<` survives the Mermaid template population. -/
theorem lt_mem_populate_mermaid {template a b c d e : List Char}
    (h : '<' ∈ template) : '<' ∈ populate_mermaid_template template a b c d e := by
  unfold populate_mermaid_template
  apply mem_pyReplace (by decide)
  apply mem_pyReplace (by decide)
  apply mem_pyReplace (by decide)
  apply mem_pyReplace (by decide)
  exact mem_pyReplace (by decide) h

/-- `<` survives the unified template population. -/
theorem lt_mem_unified_populate {template a b c d : List Char}
    (h : '<' ∈ template) : '<' ∈ unified_populate template a b c d := by
  unfold unified_populate
  apply mem_pyReplace (by decide)
  apply mem_pyReplace (by decide)
  apply mem_pyReplace (by decide)
  apply mem_pyReplace (by decide)
  exact mem_pyReplace (by decide) h

/-- Every document the Mermaid renderer returns contains `<`. -/
theorem lt_mem_mermaid_render {env : AssetEnv} {code h : List Char}
    (henv : envOk env) (hok : mermaid_render_html env code = Except.ok h) :
    '<' ∈ h := by
  unfold mermaid_render_html at hok
  split at hok
  · injection hok with hh; subst hh; decide
  · split at hok
    · injection hok with hh; subst hh; decide
    · split at hok
      · injection hok with hh; subst hh
        unfold generate_missing_plugin_error_html
        refine List.mem_append.mpr (Or.inl ?_)
        refine List.mem_append.mpr (Or.inl ?_)
        refine List.mem_append.mpr (Or.inl ?_)
        refine List.mem_append.mpr (Or.inl ?_)
        decide
      · split at hok
        · injection hok with hh; subst hh; decide
        · next hft =>
          injection hok with hh; subst hh
          apply lt_mem_populate_mermaid
          cases ht : env.loadTemplate TEMPLATE_UNIFIED with
          | none => exact absurd (by rw [ht]; rfl) hft
          | some t => exact henv _ t ht

/-- Every document the unified-template path returns contains `<`. -/
theorem lt_mem_unified_render {env : AssetEnv} {d o ty h : List Char}
    (henv : envOk env) (hok : render_unified_html env d o ty = Except.ok h) :
    '<' ∈ h := by
  unfold render_unified_html at hok
  split at hok
  · exact absurd hok (by simp)
  · split at hok
    · exact absurd hok (by simp)
    · split at hok
      · injection hok with hh; subst hh; decide
      · split at hok
        · injection hok with hh; subst hh; decide
        · split at hok
          · injection hok with hh; subst hh; decide
          · next hft =>
            injection hok with hh; subst hh
            apply lt_mem_unified_populate
            cases ht : env.loadTemplate (lc "unified.html") with
            | none => exact absurd (by rw [ht]; rfl) hft
            | some t => exact henv _ t ht

/-- Every document the PlantUML renderer returns contains `<`. -/
theorem lt_mem_plantuml_render {env : AssetEnv} {code h : List Char}
    (henv : envOk env) (hok : plantuml_render_html env code = Except.ok h) :
    '<' ∈ h := by
  unfold plantuml_render_html at hok
  split at hok
  · exact absurd hok (by simp)
  · cases hat : plantuml_render_attempt env code with
    | error e => rw [hat] at hok; exact absurd hok (by simp)
    | ok g =>
      rw [hat] at hok
      injection hok with hh
      subst hh
      unfold plantuml_render_attempt at hat
      split at hat
      · exact absurd hat (by simp)
      · split at hat
        · injection hat with hh2; subst hh2
          unfold generate_unsupported_diagram_error_html
          refine List.mem_append.mpr (Or.inl ?_)
          refine List.mem_append.mpr (Or.inl ?_)
          refine List.mem_append.mpr (Or.inl ?_)
          refine List.mem_append.mpr (Or.inl ?_)
          decide
        · exact lt_mem_unified_render henv hat

/-- Every per-block document contains `<` (hence is non-empty). -/
theorem lt_mem_single_diagram (env : AssetEnv) (b : List Char)
    (henv : envOk env) : '<' ∈ render_single_diagram env b := by
  unfold render_single_diagram
  cases hra : render_block_attempt env b with
  | error e =>
    unfold generate_rendering_error_html
    refine List.mem_append.mpr (Or.inl ?_)
    refine List.mem_append.mpr (Or.inl ?_)
    refine List.mem_append.mpr (Or.inl ?_)
    refine List.mem_append.mpr (Or.inl ?_)
    refine List.mem_append.mpr (Or.inl ?_)
    decide
  | ok h =>
    unfold render_block_attempt at hra
    split at hra
    · exact lt_mem_mermaid_render henv hra
    · split at hra
      · exact lt_mem_plantuml_render henv hra
      · split at hra
        · exact lt_mem_unified_render henv hra
        · injection hra with hh
          subst hh
          unfold generate_no_diagram_detected_error_html
          refine List.mem_append.mpr (Or.inl ?_)
          refine List.mem_append.mpr (Or.inl ?_)
          decide

/-- Members of the extractor output are trimmed and non-blank. -/
theorem mem_extract_strip {code b : List Char} {ps : List (List Char)}
    (h : b ∈ extract_all_code_blocks code ps) : pyStrip b = b ∧ b ≠ [] := by
  unfold extract_all_code_blocks at h
  rcases List.mem_map.mp h with ⟨a, ha, hb⟩
  have hq := List.of_mem_filter ha
  subst hb
  have hne : pyStrip a ≠ [] := by simpa [List.isEmpty_iff] using hq
  exact ⟨pyStrip_idem a, hne⟩

/-- A newline-join of non-empty parts is non-empty. -/
theorem pyJoin_ne_nil {sep : List Char} {parts : List (List Char)}
    (hne : parts ≠ []) (hall : ∀ d ∈ parts, d ≠ []) : pyJoin sep parts ≠ [] := by
  cases parts with
  | nil => exact absurd rfl hne
  | cons d rest =>
    cases rest with
    | nil => exact hall d (List.mem_cons_self d [])
    | cons d2 rest2 =>
      rw [pyJoin_cons₂]
      exact ne_nil_left (ne_nil_left (hall d (List.mem_cons_self d _)))

/-- C10: under a well-formed asset environment, `renderAll` yields `none`
exactly when every block it iterates is blank after trimming (in particular
for the empty input); every non-blank block's document is non-empty (every
branch emits a `<`), and a `some` result is the newline-join of those
documents and never the empty string. -/
theorem C10_renderAll_never_empty (env : AssetEnv) (code : List Char)
    (henv : envOk env) :
    (render_diagram_auto env code = none ↔ ∀ b ∈ blocksOf code, pyStrip b = [])
    ∧ (∀ b ∈ blocksOf code, pyStrip b ≠ [] → render_single_diagram env b ≠ [])
    ∧ (∀ out, render_diagram_auto env code = some out →
        out = pyJoin (lc "\n") (rendered_parts env code) ∧ out ≠ []) := by
  have hdocs : ∀ b, render_single_diagram env b ≠ [] := fun b =>
    List.ne_nil_of_mem (lt_mem_single_diagram env b henv)
  have hparts : rendered_parts env code =
      ((blocksOf code).filter (fun b => !(pyStrip b).isEmpty)).map
        (render_single_diagram env) := by
    unfold rendered_parts
    apply List.filter_eq_self.mpr
    intro d hd
    rcases List.mem_map.mp hd with ⟨b, _, hb⟩
    subst hb
    simpa [List.isEmpty_iff] using hdocs b
  have hempty : (rendered_parts env code).isEmpty = true ↔
      ∀ b ∈ blocksOf code, pyStrip b = [] := by
    rw [hparts]
    constructor
    · intro hemp b hb
      have hmap : (((blocksOf code).filter (fun b => !(pyStrip b).isEmpty)).map
          (render_single_diagram env)) = [] := by simpa [List.isEmpty_iff] using hemp
      have hfil : (blocksOf code).filter (fun b => !(pyStrip b).isEmpty) = [] :=
        List.map_eq_nil_iff.mp hmap
      by_contra hne
      have hmem : b ∈ (blocksOf code).filter (fun b => !(pyStrip b).isEmpty) :=
        List.mem_filter.mpr ⟨hb, by simpa [List.isEmpty_iff] using hne⟩
      rw [hfil] at hmem
      exact absurd hmem (List.not_mem_nil b)
    · intro hall
      have hfil : (blocksOf code).filter (fun b => !(pyStrip b).isEmpty) = [] := by
        apply List.filter_eq_nil_iff.mpr
        intro b hb
        simp [List.isEmpty_iff, hall b hb]
      rw [hfil]
      rfl
  refine ⟨?_, fun b _ _ => hdocs b, ?_⟩
  · unfold render_diagram_auto
    constructor
    · intro hnone
      by_cases he : (rendered_parts env code).isEmpty = true
      · exact hempty.mp he
      · rw [if_neg (by simpa using he)] at hnone
        exact absurd hnone (by simp)
    · intro hall
      rw [if_pos (hempty.mpr hall)]
  · intro out hout
    unfold render_diagram_auto at hout
    by_cases he : (rendered_parts env code).isEmpty = true
    · rw [if_pos he] at hout
      exact absurd hout (by simp)
    · rw [if_neg (by simpa using he)] at hout
      injection hout with hh
      refine ⟨hh.symm, ?_⟩
      rw [← hh]
      apply pyJoin_ne_nil
      · simpa [List.isEmpty_iff] using he
      · intro d hd
        have := List.of_mem_filter hd
        simpa [List.isEmpty_iff] using this

/-- Witness for C10 at the empty input and an environment with no assets:
`renderAll` is `none` exactly because the single fallback block is blank. -/
theorem C10_renderAll_never_empty_witness :
    (render_diagram_auto ⟨fun _ => none, fun _ => none⟩ (lc "") = none ↔
      ∀ b ∈ blocksOf (lc ""), pyStrip b = [])
    ∧ (∀ b ∈ blocksOf (lc ""), pyStrip b ≠ [] →
        render_single_diagram ⟨fun _ => none, fun _ => none⟩ b ≠ [])
    ∧ (∀ out, render_diagram_auto ⟨fun _ => none, fun _ => none⟩ (lc "") = some out →
        out = pyJoin (lc "\n") (rendered_parts ⟨fun _ => none, fun _ => none⟩ (lc ""))
        ∧ out ≠ []) :=
  C10_renderAll_never_empty ⟨fun _ => none, fun _ => none⟩ (lc "")
    (fun _ _ h => nomatch h)
